import Mathlib

/-! # Service protocol hooks of the Flutter content handler

A shallow embedding of `content_handler/service_protocol_hooks.cc` and theorems about it.

Conventions of the embedding.

* A `const char*` argument is `Option String`: `none` is `NULL`, `some s` is a pointer to the
  C string whose content is `s`.  An array of C strings (`const char**`) is `Option (List String)`.
  The `char`s of a C string are the bytes of the UTF-8 encoding of its text (`cstrBytes`), and
  pointer arithmetic and `sizeof` count these bytes; for a text of ASCII characters they are
  the characters of the text.
* `uintptr_t` and `unsigned long long` values are natural numbers below `2 ^ 64`; `int64_t` and
  `intptr_t` values are integers.
* A `std::stringstream` is its accumulated text together with the `basefield` formatting flag,
  the only formatting state the code touches (`std::hex`, `std::dec`).
* Code without a defined result (a read through `NULL`, a read past the end of an array or of a
  C string) and code that leaves by an exception returns `Except.error` with the `Fault`.
* The snapshot that `App::WaitForPlatformViewIds` stores in `platform_views` is an explicit
  argument of the two handlers.
* `ILLEGAL_PORT` comes from the Dart embedding API header, which is not part of the sources;
  every definition that uses it takes it as a parameter.
* The dispatcher of the Dart embedding API is the list of the registrations made with
  `Dart_RegisterRootServiceRequestCallback`, and a function pointer is a `Callback`.
-/

set_option linter.unusedVariables false

namespace flutter_runner

/-! ## Data model -/

/-- Ways in which the C++ code fails to produce a result. -/
inductive Fault where
  /-- Pointer arithmetic on, or a read through, `NULL`. -/
  | null_pointer
  /-- A read past the end of an array or past the terminator of a C string. -/
  | out_of_bounds
  /-- Exception `std::invalid_argument`, thrown by `std::stoull`. -/
  | invalid_argument
  /-- Exception `std::out_of_range`, thrown by `std::stoull`. -/
  | out_of_range
  deriving DecidableEq, Repr

/-- Record `App::PlatformViewInfo`, read through `it->view_id`, `it->isolate_id` and
`it->isolate_name`. -/
structure PlatformViewInfo where
  /-- Field of type `uintptr_t`. -/
  view_id : Nat
  /-- Field of type `int64_t`. -/
  isolate_id : Int
  /-- Field of type `std::string`. -/
  isolate_name : String
  deriving DecidableEq, Repr

/-- The `basefield` flag of a stream: set by `std::dec` and `std::hex`. -/
inductive Basefield where
  | dec
  | hex
  deriving DecidableEq, Repr

/-- A `std::stringstream`: the text written so far and the base used for integers. -/
structure StringStream where
  str : String
  basefield : Basefield
  deriving DecidableEq, Repr

/-- A default-constructed `std::stringstream`: no text, decimal integers. -/
def StringStream.fresh : StringStream := ⟨"", Basefield.dec⟩

/-- Width of `uintptr_t`, `unsigned long long` and `int64_t`. -/
def wordSize : Nat := 2 ^ 64

/-! ## Stream insertion -/

/-- Insertion of a string: `stream << "text"`, `stream << name`. -/
def StringStream.putStr (s : StringStream) (t : String) : StringStream :=
  { s with str := s.str ++ t }

/-- Insertion of one character: `stream << ','`. -/
def StringStream.putChar (s : StringStream) (c : Char) : StringStream :=
  { s with str := s.str ++ String.singleton c }

/-- Manipulator `std::hex`. -/
def StringStream.setHex (s : StringStream) : StringStream :=
  { s with basefield := Basefield.hex }

/-- Manipulator `std::dec`. -/
def StringStream.setDec (s : StringStream) : StringStream :=
  { s with basefield := Basefield.dec }

/-- Text of an unsigned integer in the given base, lowercase digits, no leading zeros. -/
def formatUnsigned (b : Basefield) (n : Nat) : String :=
  match b with
  | Basefield.dec => String.mk (Nat.toDigits 10 n)
  | Basefield.hex => String.mk (Nat.toDigits 16 n)

/-- Text of an `int64_t`: signed decimal, or the two's complement bit pattern in hexadecimal. -/
def formatInt64 (b : Basefield) (p : Int) : String :=
  match b with
  | Basefield.dec =>
    if p < 0 then String.mk ('-' :: Nat.toDigits 10 p.natAbs) else String.mk (Nat.toDigits 10 p.natAbs)
  | Basefield.hex => String.mk (Nat.toDigits 16 (p % (wordSize : Int)).toNat)

/-- Insertion of a `uintptr_t`. -/
def StringStream.putUIntPtr (s : StringStream) (n : Nat) : StringStream :=
  { s with str := s.str ++ formatUnsigned s.basefield n }

/-- Insertion of an `int64_t`. -/
def StringStream.putInt64 (s : StringStream) (p : Int) : StringStream :=
  { s with str := s.str ++ formatInt64 s.basefield p }

/-! ## C library functions used by the code -/

/-- Function `isspace` in the C locale. -/
def isspace (c : Char) : Bool :=
  c = ' ' || c = '\t' || c = '\n' || c = '\x0b' || c = '\x0c' || c = '\r'

/-- Value of a character as a digit: `0`-`9`, then letters of either case from 10 on. -/
def digitVal (c : Char) : Option Nat :=
  if '0' ≤ c ∧ c ≤ '9' then some (c.toNat - 48)
  else if 'a' ≤ c ∧ c ≤ 'z' then some (c.toNat - 87)
  else if 'A' ≤ c ∧ c ≤ 'Z' then some (c.toNat - 55)
  else none

/-- Whether a character is a digit of the given base. -/
def isDigitOf (base : Nat) (c : Char) : Bool :=
  match digitVal c with
  | some d => decide (d < base)
  | none => false

/-- Value of a run of digits, most significant first. -/
def digitsValue (base : Nat) (ds : List Char) : Nat :=
  ds.foldl (fun acc c => acc * base + (digitVal c).getD 0) 0

/-- Removal of an optional sign; the flag tells whether it was a minus. -/
def stripSign (s : List Char) : Bool × List Char :=
  match s with
  | [] => (false, [])
  | c :: t => if c = '-' then (true, t) else if c = '+' then (false, t) else (false, c :: t)

/-- Removal of the optional `0x` or `0X` in base 16; it is part of the number only when a
hexadecimal digit follows it. -/
def stripHexMark (base : Nat) (s : List Char) : List Char :=
  match s with
  | z :: x :: d :: t =>
    if base = 16 ∧ z = '0' ∧ (x = 'x' ∨ x = 'X') ∧ isDigitOf base d = true then d :: t else s
  | _ => s

/-- Function `std::stoull(str, nullptr, base)` for a base from 2 to 36, after `strtoull`: skip
white space, take an optional sign and in base 16 an optional `0x`, convert the longest run of
digits; no digit throws `std::invalid_argument`, a value that does not fit `unsigned long long`
throws `std::out_of_range`, and a minus sign negates the value modulo `2 ^ 64`.  The argument
holds the `char`s of the `std::string`, one character per byte. -/
def stoull (str : String) (base : Nat) : Except Fault Nat :=
  let signed := stripSign (str.data.dropWhile isspace)
  let digits := (stripHexMark base signed.2).takeWhile (isDigitOf base)
  if digits = [] then Except.error Fault.invalid_argument
  else
    let v := digitsValue base digits
    if wordSize ≤ v then Except.error Fault.out_of_range
    else Except.ok (if signed.1 then (wordSize - v) % wordSize else v)

/-- The bytes of one character in UTF-8: one byte below U+0080, two below U+0800, three below
U+10000, four from there on. -/
def utf8Bytes (c : Char) : List Nat :=
  if c.toNat < 128 then [c.toNat]
  else if c.toNat < 2048 then [192 + c.toNat / 64, 128 + c.toNat % 64]
  else if c.toNat < 65536 then
    [224 + c.toNat / 4096, 128 + c.toNat / 64 % 64, 128 + c.toNat % 64]
  else
    [240 + c.toNat / 262144, 128 + c.toNat / 4096 % 64, 128 + c.toNat / 64 % 64,
      128 + c.toNat % 64]

/-- The `char`s of a C string, as byte values: the UTF-8 encoding of its text. -/
def cstrBytes : List Char → List Nat
  | [] => []
  | c :: t => utf8Bytes c ++ cstrBytes t

/-- Pointer arithmetic `p + n` on a C string followed by a read of the C string that starts
there: undefined for `NULL` and for a position behind the terminator.  The pointer advances by
`n` bytes, and the result holds the bytes that follow, one character per byte. -/
def cstrFrom (p : Option String) (n : Nat) : Except Fault String :=
  match p with
  | none => Except.error Fault.null_pointer
  | some s =>
    if (cstrBytes s.data).length < n then Except.error Fault.out_of_bounds
    else Except.ok (String.mk (((cstrBytes s.data).drop n).map Char.ofNat))

/-- Function `strdup(s.c_str())` for a `std::string`: the copy ends at the first NUL. -/
def strdup (s : String) : String :=
  String.mk (s.data.takeWhile (fun c => c ≠ '\x00'))

/-! ## The anonymous namespace -/

/-- Constant `kViewIdPrefx`. -/
def kViewIdPrefx : String := "_flutterView/"

/-- Constant `kViewIdPrefxLength`, that is `sizeof(kViewIdPrefx) - 1`: the number of bytes of
the prefix. -/
def kViewIdPrefxLength : Nat := (cstrBytes kViewIdPrefx.data).length

/-- Loop of `KeyIndex` from index `i`; `rest` is the part of the array from `i` on. -/
def KeyIndex.loop (key : String) (num_params : Int) : List String → Nat → Except Fault Int
  | [], i => if (i : Int) < num_params then Except.error Fault.out_of_bounds else Except.ok (-1)
  | k :: rest, i =>
    if (i : Int) < num_params then
      if k = key then Except.ok (i : Int) else KeyIndex.loop key num_params rest (i + 1)
    else Except.ok (-1)

/-- Function `KeyIndex`. -/
def KeyIndex (param_keys : Option (List String)) (num_params : Int) (key : String) :
    Except Fault Int :=
  match param_keys with
  | none => Except.ok (-1)
  | some keys => KeyIndex.loop key num_params keys 0

/-- Function `ValueForKey`; the result `none` is `NULL`. -/
def ValueForKey (param_keys param_values : Option (List String)) (num_params : Int)
    (key : String) : Except Fault (Option String) :=
  match KeyIndex param_keys num_params key with
  | Except.error e => Except.error e
  | Except.ok index =>
    if index < 0 then Except.ok none
    else
      match param_values with
      | none => Except.error Fault.null_pointer
      | some values =>
        match values.get? index.toNat with
        | none => Except.error Fault.out_of_bounds
        | some v => Except.ok (some v)

/-- Function `AppendIsolateRef`. -/
def AppendIsolateRef (stream : StringStream) (main_port : Int) (name : String) : StringStream :=
  let stream := stream.putStr "\x7b\"type\":\"@Isolate\",\"fixedId\":true,\"id\":\"isolates/"
  let stream := ((stream.putInt64 main_port).putStr "\",\"name\":\"").putStr name |>.putStr "\","
  (stream.putStr "\"number\":\"").putInt64 main_port |>.putStr "\"\x7d"

/-- Function `AppendFlutterView`. -/
def AppendFlutterView (ILLEGAL_PORT : Int) (stream : StringStream) (view_id : Nat)
    (isolate_id : Int) (isolate_name : String) : StringStream :=
  let stream := (((((stream.putStr "\x7b\"type\":\"FlutterView\", \"id\": \"").putStr
    kViewIdPrefx).putStr "0x").setHex.putUIntPtr view_id).setDec).putStr "\""
  let stream :=
    if isolate_id ≠ ILLEGAL_PORT then
      AppendIsolateRef ((stream.putStr ",").putStr "\"isolate\":") isolate_id isolate_name
    else stream
  stream.putStr "\x7d"

/-! ## The handlers -/

/-- Loop of `ListViews` over the snapshot, with the local `prefix_comma`. -/
def ListViews.loop (ILLEGAL_PORT : Int) :
    List PlatformViewInfo → Bool → StringStream → StringStream
  | [], _, response => response
  | it :: rest, prefix_comma, response =>
    if it.view_id = 0 then ListViews.loop ILLEGAL_PORT rest prefix_comma response
    else
      let response := if prefix_comma then response.putChar ',' else response
      ListViews.loop ILLEGAL_PORT rest true
        (AppendFlutterView ILLEGAL_PORT response it.view_id it.isolate_id it.isolate_name)

/-- Handler `ServiceProtocolHooks::ListViews`: the returned flag and the text stored in
`*json_object`. -/
def ListViews (ILLEGAL_PORT : Int) (platform_views : List PlatformViewInfo)
    (method : Option String) (param_keys param_values : Option (List String))
    (num_params : Int) (user_data : Nat) : Bool × String :=
  let response := StringStream.fresh
  let response := response.putStr "\x7b\"type\":\"FlutterViewList\",\"views\":["
  let response := ListViews.loop ILLEGAL_PORT platform_views false response
  let response := response.putStr "]\x7d"
  (true, strdup response.str)

/-- Conversion of the `viewId` text to a number: `std::stoull` applied to
`view_id_str + kViewIdPrefxLength` in base 16, stored in a `uintptr_t`. -/
def decodeViewId (view_id_str : Option String) : Except Fault Nat :=
  match cstrFrom view_id_str kViewIdPrefxLength with
  | Except.error e => Except.error e
  | Except.ok tail =>
    match stoull tail 16 with
    | Except.error e => Except.error e
    | Except.ok n => Except.ok (n % wordSize)

/-- Loop of `SetAssetBundlePath` over the snapshot; it ends at the first match. -/
def SetAssetBundlePath.loop (ILLEGAL_PORT : Int) (view_id_as_num : Nat) :
    List PlatformViewInfo → StringStream → StringStream
  | [], response => response
  | it :: rest, response =>
    if it.view_id = 0 ∨ it.view_id ≠ view_id_as_num then
      SetAssetBundlePath.loop ILLEGAL_PORT view_id_as_num rest response
    else AppendFlutterView ILLEGAL_PORT response it.view_id it.isolate_id it.isolate_name

/-- Handler `ServiceProtocolHooks::SetAssetBundlePath`: the returned flag and the text stored
in `*json_object`, or the fault that ends the call. -/
def SetAssetBundlePath (ILLEGAL_PORT : Int) (platform_views : List PlatformViewInfo)
    (method : Option String) (param_keys param_values : Option (List String))
    (num_params : Int) (user_data : Nat) : Except Fault (Bool × String) :=
  match ValueForKey param_keys param_values num_params "viewId" with
  | Except.error e => Except.error e
  | Except.ok view_id_str =>
    match decodeViewId view_id_str with
    | Except.error e => Except.error e
    | Except.ok view_id_as_num =>
      let response := StringStream.fresh
      let response := (response.putStr "\x7b\"type\":\"Success\",").putStr "\"view\":"
      let response := SetAssetBundlePath.loop ILLEGAL_PORT view_id_as_num platform_views response
      let response := response.putStr "\x7d"
      Except.ok (true, strdup response.str)

/-! ## Texts used to state the properties -/

deriving instance DecidableEq for Except

/-- Text that `AppendFlutterView` writes for a record, taken on a new stream. -/
def viewFragment (ILLEGAL_PORT : Int) (r : PlatformViewInfo) : String :=
  (AppendFlutterView ILLEGAL_PORT StringStream.fresh r.view_id r.isolate_id r.isolate_name).str

/-- Text that `AppendIsolateRef` writes, taken on a new stream. -/
def isolateRef (main_port : Int) (name : String) : String :=
  (AppendIsolateRef StringStream.fresh main_port name).str

/-- Encoding of a view handle in the words of the specification: the handle in lowercase
hexadecimal behind `_flutterView/0x`. -/
def encodeViewId (v : Nat) : String :=
  "_flutterView/0x" ++ String.mk (Nat.toDigits 16 v)

/-- Texts joined by single commas: none before the first, none after the last. -/
def commaJoin : List String → String
  | [] => ""
  | [a] => a
  | a :: b :: rest => a ++ "," ++ commaJoin (b :: rest)

/-- The records of a snapshot whose handle is not zero, in snapshot order. -/
def nonZeroViews (platform_views : List PlatformViewInfo) : List PlatformViewInfo :=
  platform_views.filter (fun r => decide (r.view_id ≠ 0))

/-- Texts each preceded by a comma: what follows the first text of `commaJoin`. -/
def commaTail : List String → String
  | [] => ""
  | a :: rest => "," ++ a ++ commaTail rest

/-- The view-list response in the words of the specification: the fragments of the records
with a non-zero handle, joined by commas, between the fixed opening and closing texts. -/
def viewListText (ILLEGAL_PORT : Int) (platform_views : List PlatformViewInfo) : String :=
  "\x7b\"type\":\"FlutterViewList\",\"views\":["
    ++ commaJoin ((nonZeroViews platform_views).map (viewFragment ILLEGAL_PORT)) ++ "]\x7d"

/-- The first record of a snapshot with the given handle. -/
def firstView (h : Nat) (platform_views : List PlatformViewInfo) : Option PlatformViewInfo :=
  platform_views.find? (fun r => decide (r.view_id = h))

/-- A text without NUL character. -/
def NulFree (s : String) : Prop := '\x00' ∉ s.data

instance (s : String) : Decidable (NulFree s) := by
  unfold NulFree
  infer_instance

/-- Whether `needle` occurs in `text` as a contiguous run of characters. -/
def Occurs (needle text : String) : Prop := needle.data <:+: text.data

/-! ## Registration -/

/-- Constant `ServiceProtocolHooks::kListViewsExtensionName`. -/
def kListViewsExtensionName : String := "_flutter.listViews"

/-- Constant `ServiceProtocolHooks::kSetAssetBundlePathExtensionName`. -/
def kSetAssetBundlePathExtensionName : String := "_flutter.setAssetBundlePath"

/-- A function pointer handed to the dispatcher: `&ListViews` or `&SetAssetBundlePath`. -/
inductive Callback where
  | listViews
  | setAssetBundlePath
  deriving DecidableEq, Repr

/-- What a call through the function pointer runs. -/
def Callback.call (c : Callback) (ILLEGAL_PORT : Int) (platform_views : List PlatformViewInfo)
    (method : Option String) (param_keys param_values : Option (List String))
    (num_params : Int) (user_data : Nat) : Except Fault (Bool × String) :=
  match c with
  | Callback.listViews =>
    Except.ok
      (ListViews ILLEGAL_PORT platform_views method param_keys param_values num_params user_data)
  | Callback.setAssetBundlePath =>
    SetAssetBundlePath ILLEGAL_PORT platform_views method param_keys param_values num_params
      user_data

/-- One call of `Dart_RegisterRootServiceRequestCallback`: the name, the callback and the
user data pointer, where `none` is `nullptr`. -/
structure Registration where
  name : String
  callback : Callback
  user_data : Option Nat
  deriving DecidableEq, Repr

/-- Function `Dart_RegisterRootServiceRequestCallback` of the Dart embedding API, which is not
part of the sources: the dispatcher is the list of the registrations made, in call order. -/
def Dart_RegisterRootServiceRequestCallback (dispatcher : List Registration) (name : String)
    (callback : Callback) (user_data : Option Nat) : List Registration :=
  dispatcher ++ [⟨name, callback, user_data⟩]

/-- Function `ServiceProtocolHooks::RegisterHooks`. -/
def RegisterHooks (running_precompiled_code : Bool) (dispatcher : List Registration) :
    List Registration :=
  let dispatcher := Dart_RegisterRootServiceRequestCallback dispatcher kListViewsExtensionName
    Callback.listViews none
  Dart_RegisterRootServiceRequestCallback dispatcher kSetAssetBundlePathExtensionName
    Callback.setAssetBundlePath none

/-! ## Well-formed JSON -/

/-- White space of JSON. -/
def jsonWs (c : Char) : Bool := c = ' ' || c = '\t' || c = '\n' || c = '\r'

/-- A decimal digit. -/
def jsonDigit (c : Char) : Bool := decide ('0' ≤ c ∧ c ≤ '9')

/-- The text behind a JSON string, given the text behind its opening quote: any character from
U+0020 on except the quote and the backslash, or a backslash with one of the escapes of JSON. -/
def jsonStringRest : Nat → List Char → Option (List Char)
  | 0, _ => none
  | _ + 1, [] => none
  | fuel + 1, c :: t =>
    if c = '"' then some t
    else if c = '\\' then
      match t with
      | [] => none
      | e :: t =>
        if e = 'u' then
          match t with
          | a :: b :: c :: d :: t =>
            if isDigitOf 16 a && isDigitOf 16 b && isDigitOf 16 c && isDigitOf 16 d then
              jsonStringRest fuel t
            else none
          | _ => none
        else if e = '"' || e = '\\' || e = '/' || e = 'b' || e = 'f' || e = 'n' || e = 'r'
            || e = 't' then
          jsonStringRest fuel t
        else none
    else if c.toNat < 32 then none
    else jsonStringRest fuel t

/-- One or more digits, then the rest. -/
def jsonDigits (s : List Char) : Option (List Char) :=
  match s with
  | [] => none
  | c :: t => if jsonDigit c then some (t.dropWhile jsonDigit) else none

/-- The text behind a JSON number: an optional minus, `0` or digits without leading zero, an
optional fraction and an optional exponent. -/
def jsonNumberRest (s : List Char) : Option (List Char) :=
  let unsigned := match s with
    | [] => []
    | c :: t => if c = '-' then t else c :: t
  let afterInt : Option (List Char) := match unsigned with
    | [] => none
    | c :: t => if c = '0' then some t else jsonDigits (c :: t)
  match afterInt with
  | none => none
  | some r =>
    let afterFrac : Option (List Char) := match r with
      | [] => some []
      | c :: t => if c = '.' then jsonDigits t else some (c :: t)
    match afterFrac with
    | none => none
    | some r =>
      match r with
      | [] => some []
      | c :: t =>
        if c = 'e' || c = 'E' then
          match t with
          | [] => none
          | g :: u => if g = '+' || g = '-' then jsonDigits u else jsonDigits (g :: u)
        else some (c :: t)

/-- The text behind a given word, when the text starts with it. -/
def jsonWord (word : String) (s : List Char) : Option (List Char) :=
  if word.data.isPrefixOf s then some (s.drop word.length) else none

mutual

/-- The text behind a JSON value, with white space allowed before it. -/
def jsonValueRest : Nat → List Char → Option (List Char)
  | 0, _ => none
  | fuel + 1, s =>
    match s.dropWhile jsonWs with
    | [] => none
    | c :: t =>
      if c = '\x7b' then
        match t.dropWhile jsonWs with
        | [] => none
        | d :: u => if d = '\x7d' then some u else jsonMembersRest fuel (d :: u)
      else if c = '[' then
        match t.dropWhile jsonWs with
        | [] => none
        | d :: u => if d = ']' then some u else jsonElementsRest fuel (d :: u)
      else if c = '"' then jsonStringRest (t.length + 1) t
      else if c = 't' then jsonWord "true" (c :: t)
      else if c = 'f' then jsonWord "false" (c :: t)
      else if c = 'n' then jsonWord "null" (c :: t)
      else jsonNumberRest (c :: t)

/-- The text behind the closing brace of an object, given the text from its first member. -/
def jsonMembersRest : Nat → List Char → Option (List Char)
  | 0, _ => none
  | fuel + 1, s =>
    match s.dropWhile jsonWs with
    | [] => none
    | q :: t =>
      if q = '"' then
        match jsonStringRest (t.length + 1) t with
        | none => none
        | some r =>
          match r.dropWhile jsonWs with
          | [] => none
          | c :: u =>
            if c = ':' then
              match jsonValueRest fuel u with
              | none => none
              | some v =>
                match v.dropWhile jsonWs with
                | [] => none
                | d :: w =>
                  if d = ',' then jsonMembersRest fuel w
                  else if d = '\x7d' then some w
                  else none
            else none
      else none

/-- The text behind the closing bracket of an array, given the text from its first element. -/
def jsonElementsRest : Nat → List Char → Option (List Char)
  | 0, _ => none
  | fuel + 1, s =>
    match jsonValueRest fuel s with
    | none => none
    | some v =>
      match v.dropWhile jsonWs with
      | [] => none
      | d :: w =>
        if d = ',' then jsonElementsRest fuel w
        else if d = ']' then some w
        else none

end

/-- Whether a text is well-formed JSON (RFC 8259): one value, white space around it allowed,
nothing else.  Every step of the recognizer that uses fuel has read a character at least every
second step, so twice the length of the text is enough fuel. -/
def wellFormedJson (text : String) : Bool :=
  match jsonValueRest (2 * text.length + 2) text.data with
  | none => false
  | some r => r.dropWhile jsonWs = []

/-! ## Digits -/

theorem toDigitsCore_acc (b : Nat) : ∀ (f n : Nat) (acc : List Char),
    Nat.toDigitsCore b f n acc = Nat.toDigitsCore b f n [] ++ acc := by
  intro f
  induction f with
  | zero => intro n acc; simp [Nat.toDigitsCore]
  | succ f ih =>
    intro n acc
    simp only [Nat.toDigitsCore]
    split
    · simp
    · rw [ih (n / b) (Nat.digitChar (n % b) :: acc), ih (n / b) [Nat.digitChar (n % b)]]
      simp

theorem toDigitsCore_fuel (b : Nat) (hb : 2 ≤ b) : ∀ (f g n : Nat), n < f → n < g →
    Nat.toDigitsCore b f n [] = Nat.toDigitsCore b g n [] := by
  intro f
  induction f with
  | zero => intro g n h; omega
  | succ f ih =>
    intro g n hf hg
    cases g with
    | zero => omega
    | succ g =>
      simp only [Nat.toDigitsCore]
      split
      · rfl
      · rename_i hne
        have hlt : n / b < n := Nat.div_lt_self (by
          rcases Nat.eq_zero_or_pos n with h | h
          · subst h; simp at hne
          · exact h) hb
        rw [toDigitsCore_acc b f, toDigitsCore_acc b g, ih g (n / b) (by omega) (by omega)]

theorem toDigits_small (b n : Nat) (h : n / b = 0) :
    Nat.toDigits b n = [Nat.digitChar (n % b)] := by
  simp [Nat.toDigits, Nat.toDigitsCore, h]

theorem toDigits_step (b n : Nat) (hb : 2 ≤ b) (h : n / b ≠ 0) :
    Nat.toDigits b n = Nat.toDigits b (n / b) ++ [Nat.digitChar (n % b)] := by
  have hlt : n / b < n := Nat.div_lt_self (by
    rcases Nat.eq_zero_or_pos n with h0 | h0
    · subst h0; simp at h
    · exact h0) hb
  have e : Nat.toDigits b n = Nat.toDigitsCore b n (n / b) [Nat.digitChar (n % b)] := by
    simp [Nat.toDigits, Nat.toDigitsCore, h]
  rw [e, toDigitsCore_acc b n, toDigitsCore_fuel b hb n (n / b + 1) (n / b) hlt (by omega)]
  rfl

theorem digitVal_digitChar (d : Nat) (h : d < 16) : digitVal (Nat.digitChar d) = some d := by
  interval_cases d <;> rfl

theorem isDigitOf_digitChar (d : Nat) (h : d < 16) : isDigitOf 16 (Nat.digitChar d) = true := by
  simp [isDigitOf, digitVal_digitChar d h, h]

theorem digitsValue_append (b : Nat) (ds : List Char) (c : Char) :
    digitsValue b (ds ++ [c]) = digitsValue b ds * b + (digitVal c).getD 0 := by
  simp [digitsValue, List.foldl_append]

/-- The hexadecimal digits of `n` have the value `n`, are digits of base 16, and there is at
least one. -/
theorem hex_spec (n : Nat) : digitsValue 16 (Nat.toDigits 16 n) = n
    ∧ (∀ c ∈ Nat.toDigits 16 n, isDigitOf 16 c = true)
    ∧ Nat.toDigits 16 n ≠ [] := by
  induction n using Nat.strong_induction_on with
  | _ n ih =>
    have hlt : n % 16 < 16 := Nat.mod_lt _ (by decide)
    by_cases h : n / 16 = 0
    · rw [toDigits_small 16 n h]
      refine ⟨?_, ?_, by simp⟩
      · simp [digitsValue, digitVal_digitChar _ hlt]
        omega
      · intro c hc
        simp at hc
        subst hc
        exact isDigitOf_digitChar _ hlt
    · have hdiv : n / 16 < n := by omega
      obtain ⟨h1, h2, _⟩ := ih (n / 16) hdiv
      rw [toDigits_step 16 n (by decide) h]
      refine ⟨?_, ?_, by simp⟩
      · rw [digitsValue_append, h1, digitVal_digitChar _ hlt]
        simp
        omega
      · intro c hc
        rcases List.mem_append.mp hc with hc | hc
        · exact h2 c hc
        · simp at hc
          subst hc
          exact isDigitOf_digitChar _ hlt

theorem digitChar_lowercase (d : Nat) (h : d < 16) :
    Nat.digitChar d ∈ "0123456789abcdef".data := by
  interval_cases d <;> decide

theorem hex_lowercase (n : Nat) : ∀ c ∈ Nat.toDigits 16 n, c ∈ "0123456789abcdef".data := by
  induction n using Nat.strong_induction_on with
  | _ n ih =>
    have hlt : n % 16 < 16 := Nat.mod_lt _ (by decide)
    by_cases h : n / 16 = 0
    · rw [toDigits_small 16 n h]
      intro c hc
      rw [List.mem_singleton] at hc
      subst hc
      exact digitChar_lowercase _ hlt
    · rw [toDigits_step 16 n (by decide) h]
      intro c hc
      rcases List.mem_append.mp hc with hc | hc
      · exact ih (n / 16) (by omega) c hc
      · rw [List.mem_singleton] at hc
        subst hc
        exact digitChar_lowercase _ hlt

theorem hex_no_leading_zero (n : Nat) (hn : n ≠ 0) : (Nat.toDigits 16 n).head? ≠ some '0' := by
  induction n using Nat.strong_induction_on with
  | _ n ih =>
    by_cases h : n / 16 = 0
    · rw [toDigits_small 16 n h]
      have hlt : n < 16 := by omega
      have hmod : n % 16 = n := Nat.mod_eq_of_lt hlt
      rw [hmod]
      interval_cases n
      · exact absurd rfl hn
      all_goals decide
    · rw [toDigits_step 16 n (by decide) h]
      have := ih (n / 16) (by omega) h
      cases hd : Nat.toDigits 16 (n / 16) with
      | nil => exact absurd hd (hex_spec _).2.2
      | cons d t =>
        rw [hd] at this
        simpa using this

theorem hex_no_space (n : Nat) : (Nat.toDigits 16 n).filter isspace = [] := by
  rw [List.filter_eq_nil_iff]
  intro c hc
  have hall : ∀ c ∈ "0123456789abcdef".data, ¬ isspace c = true := by decide
  exact hall c (hex_lowercase n c hc)

/-! ## Bytes of a C string -/

theorem utf8Bytes_ascii (c : Char) (h : c.toNat < 128) : utf8Bytes c = [c.toNat] := by
  simp [utf8Bytes, h]

theorem cstrBytes_append (a b : List Char) :
    cstrBytes (a ++ b) = cstrBytes a ++ cstrBytes b := by
  induction a with
  | nil => rfl
  | cons c t ih => simp [cstrBytes, ih]

theorem cstrBytes_ascii (l : List Char) (h : ∀ c ∈ l, c.toNat < 128) :
    cstrBytes l = l.map Char.toNat := by
  induction l with
  | nil => rfl
  | cons c t ih =>
    rw [cstrBytes, utf8Bytes_ascii c (h c (List.mem_cons_self _ _)),
      ih (fun x hx => h x (List.mem_cons_of_mem _ hx))]
    rfl

theorem map_ofNat_toNat (l : List Char) : (l.map Char.toNat).map Char.ofNat = l := by
  induction l with
  | nil => rfl
  | cons c t ih => rw [List.map_cons, List.map_cons, ih, Char.ofNat_toNat]

theorem hexChars_ascii : ∀ c ∈ "0123456789abcdefABCDEF".data, c.toNat < 128 := by
  decide

theorem lowerHexChars_ascii : ∀ c ∈ "0123456789abcdef".data, c.toNat < 128 := by
  decide

theorem cstrFrom_drop (a : String) (h : kViewIdPrefxLength ≤ (cstrBytes a.data).length) :
    cstrFrom (some a) kViewIdPrefxLength
      = Except.ok (String.mk (((cstrBytes a.data).drop kViewIdPrefxLength).map Char.ofNat)) := by
  have hlt : ¬ (cstrBytes a.data).length < kViewIdPrefxLength := by omega
  simp only [cstrFrom, if_neg hlt]

/-- Behind the 13 bytes of `_flutterView/` a text of ASCII characters that starts with
`_flutterView/0x` leaves `0x` and what follows it. -/
theorem cstrFrom_after_prefix (x : List Char) (hx : ∀ c ∈ x, c.toNat < 128) :
    cstrFrom (some ("_flutterView/0x" ++ String.mk x)) kViewIdPrefxLength
      = Except.ok (String.mk ('0' :: 'x' :: x)) := by
  have hbytes : cstrBytes ("_flutterView/0x" ++ String.mk x).data
      = cstrBytes "_flutterView/0x".data ++ x.map Char.toNat := by
    rw [String.data_append, cstrBytes_append, cstrBytes_ascii x hx]
  have h13 : kViewIdPrefxLength = 13 := rfl
  have hpre : cstrBytes "_flutterView/0x".data
      = [95, 102, 108, 117, 116, 116, 101, 114, 86, 105, 101, 119, 47, 48, 120] := by
    decide
  have hlen : kViewIdPrefxLength ≤ (cstrBytes ("_flutterView/0x" ++ String.mk x).data).length := by
    rw [hbytes, hpre, h13]
    simp
  rw [cstrFrom_drop _ hlen, hbytes, hpre, h13]
  have hdrop : List.drop 13
      ([95, 102, 108, 117, 116, 116, 101, 114, 86, 105, 101, 119, 47, 48, 120]
        ++ x.map Char.toNat) = 48 :: 120 :: x.map Char.toNat := rfl
  rw [hdrop, List.map_cons, List.map_cons, map_ofNat_toNat]

/-! ## Decoding -/

theorem stoull_hex (v : Nat) (hv : v < wordSize) :
    stoull (String.mk ('0' :: 'x' :: Nat.toDigits 16 v)) 16 = Except.ok v := by
  obtain ⟨hval, hall, hne⟩ := hex_spec v
  cases hd : Nat.toDigits 16 v with
  | nil => exact absurd hd hne
  | cons d t =>
    rw [hd] at hval hall
    have hd1 : isDigitOf 16 d = true := hall d (List.mem_cons_self _ _)
    have htake : List.takeWhile (isDigitOf 16) (d :: t) = d :: t :=
      List.takeWhile_eq_self_iff.mpr hall
    have hsp : List.dropWhile isspace ('0' :: 'x' :: d :: t) = '0' :: 'x' :: d :: t := by
      rw [List.dropWhile_cons]
      have : isspace '0' = false := by decide
      simp [this]
    have hsign : stripSign ('0' :: 'x' :: d :: t) = (false, '0' :: 'x' :: d :: t) := by
      have h1 : ('0' : Char) ≠ '-' := by decide
      have h2 : ('0' : Char) ≠ '+' := by decide
      simp [stripSign, h1, h2]
    have hmark : stripHexMark 16 ('0' :: 'x' :: d :: t) = d :: t := by
      simp [stripHexMark, hd1]
    have hnot : ¬ wordSize ≤ digitsValue 16 (d :: t) := by rw [hval]; omega
    unfold stoull
    simp only [hsp, hsign, hmark, htake]
    rw [if_neg (by simp), if_neg hnot, hval]
    simp

theorem decode_encode (v : Nat) (hv : v < wordSize) :
    decodeViewId (some (encodeViewId v)) = Except.ok v := by
  have hc : cstrFrom (some (encodeViewId v)) kViewIdPrefxLength
      = Except.ok (String.mk ('0' :: 'x' :: Nat.toDigits 16 v)) :=
    cstrFrom_after_prefix (Nat.toDigits 16 v)
      (fun c hc => lowerHexChars_ascii c (hex_lowercase v c hc))
  simp only [decodeViewId, hc, stoull_hex v hv]
  rw [Nat.mod_eq_of_lt hv]

/-! ## Streams -/

theorem AppendIsolateRef_eq (s : StringStream) (p : Int) (n : String) :
    AppendIsolateRef s p n
      = ⟨s.str ++ ("\x7b\"type\":\"@Isolate\",\"fixedId\":true,\"id\":\"isolates/"
          ++ formatInt64 s.basefield p ++ "\",\"name\":\"" ++ n ++ "\",\"number\":\""
          ++ formatInt64 s.basefield p ++ "\"\x7d"), s.basefield⟩ := by
  apply (StringStream.mk.injEq _ _ _ _).mpr
  refine ⟨?_, rfl⟩
  apply String.ext
  simp [AppendIsolateRef, StringStream.putStr, StringStream.putInt64]

theorem AppendFlutterView_unbound (ip : Int) (s : StringStream) (v : Nat) (n : String) :
    AppendFlutterView ip s v ip n
      = ⟨s.str ++ ("\x7b\"type\":\"FlutterView\", \"id\": \"" ++ encodeViewId v ++ "\"\x7d"),
          Basefield.dec⟩ := by
  apply (StringStream.mk.injEq _ _ _ _).mpr
  refine ⟨?_, by simp [AppendFlutterView, StringStream.putStr, StringStream.setDec]⟩
  apply String.ext
  simp [AppendFlutterView, StringStream.putStr, StringStream.putUIntPtr, StringStream.setHex,
    StringStream.setDec, formatUnsigned, encodeViewId, kViewIdPrefx]

theorem AppendFlutterView_bound (ip : Int) (s : StringStream) (v : Nat) (p : Int) (n : String)
    (hp : p ≠ ip) :
    AppendFlutterView ip s v p n
      = ⟨s.str ++ ("\x7b\"type\":\"FlutterView\", \"id\": \"" ++ encodeViewId v ++ "\""
          ++ ",\"isolate\":" ++ isolateRef p n ++ "\x7d"), Basefield.dec⟩ := by
  apply (StringStream.mk.injEq _ _ _ _).mpr
  refine ⟨?_, by simp [AppendFlutterView, StringStream.putStr, StringStream.setDec, hp,
    AppendIsolateRef_eq]⟩
  apply String.ext
  simp [AppendFlutterView, StringStream.putStr, StringStream.putUIntPtr, StringStream.setHex,
    StringStream.setDec, formatUnsigned, encodeViewId, kViewIdPrefx, hp, AppendIsolateRef_eq,
    isolateRef, StringStream.fresh]

theorem AppendFlutterView_eq (ip : Int) (s : StringStream) (v : Nat) (p : Int) (n : String) :
    AppendFlutterView ip s v p n = ⟨s.str ++ viewFragment ip ⟨v, p, n⟩, Basefield.dec⟩ := by
  by_cases hp : p = ip
  · subst hp
    rw [AppendFlutterView_unbound, viewFragment, AppendFlutterView_unbound]
    simp [StringStream.fresh]
  · rw [AppendFlutterView_bound _ _ _ _ _ hp, viewFragment, AppendFlutterView_bound _ _ _ _ _ hp]
    simp [StringStream.fresh]

theorem formatInt64_dec_eq_toString (p : Int) : formatInt64 Basefield.dec p = toString p := by
  cases p with
  | ofNat m =>
    have h : ¬ (Int.ofNat m < 0) := by simp
    simp only [formatInt64, if_neg h]
    rfl
  | negSucc m =>
    have h : Int.negSucc m < 0 := Int.negSucc_lt_zero m
    simp only [formatInt64, if_pos h]
    rfl

/-! ## NUL characters -/

theorem digitChar_ne_nul (d : Nat) : Nat.digitChar d ≠ '\x00' := by
  by_cases h : d < 16
  · interval_cases d <;> decide
  · have e : Nat.digitChar d = '*' := by
      unfold Nat.digitChar
      repeat rw [if_neg (by omega)]
    rw [e]
    decide

theorem toDigitsCore_mem (b : Nat) : ∀ (f n : Nat) (acc : List Char) (c : Char),
    c ∈ Nat.toDigitsCore b f n acc → c ∈ acc ∨ ∃ d, c = Nat.digitChar d := by
  intro f
  induction f with
  | zero => intro n acc c h; exact Or.inl (by simpa [Nat.toDigitsCore] using h)
  | succ f ih =>
    intro n acc c h
    simp only [Nat.toDigitsCore] at h
    split at h
    · rcases List.mem_cons.mp h with h | h
      · exact Or.inr ⟨_, h⟩
      · exact Or.inl h
    · rcases ih _ _ _ h with h | h
      · rcases List.mem_cons.mp h with h | h
        · exact Or.inr ⟨_, h⟩
        · exact Or.inl h
      · exact Or.inr h

theorem nulFree_digits (b n : Nat) : NulFree (String.mk (Nat.toDigits b n)) := by
  intro h
  rcases toDigitsCore_mem b _ _ _ _ h with h | ⟨d, h⟩
  · simp at h
  · exact digitChar_ne_nul d h.symm

theorem nulFree_append (a b : String) : NulFree (a ++ b) ↔ NulFree a ∧ NulFree b := by
  simp [NulFree, not_or]

theorem strdup_of_nulFree (s : String) (h : NulFree s) : strdup s = s := by
  apply String.ext
  simp only [strdup]
  apply List.takeWhile_eq_self_iff.mpr
  intro c hc
  have : c ≠ '\x00' := fun e => h (e ▸ hc)
  simpa using this

theorem nulFree_formatInt64_dec (p : Int) : NulFree (formatInt64 Basefield.dec p) := by
  unfold formatInt64
  split_ifs
  · intro h
    rcases List.mem_cons.mp h with h | h
    · exact absurd h (by decide)
    · exact nulFree_digits 10 _ h
  · exact nulFree_digits 10 _

theorem nulFree_encodeViewId (v : Nat) : NulFree (encodeViewId v) := by
  unfold encodeViewId
  rw [nulFree_append]
  exact ⟨by decide, nulFree_digits 16 v⟩

theorem isolateRef_eq (p : Int) (n : String) :
    isolateRef p n = "\x7b\"type\":\"@Isolate\",\"fixedId\":true,\"id\":\"isolates/"
      ++ formatInt64 Basefield.dec p ++ "\",\"name\":\"" ++ n ++ "\",\"number\":\""
      ++ formatInt64 Basefield.dec p ++ "\"\x7d" := by
  rw [isolateRef, AppendIsolateRef_eq]
  apply String.ext
  simp [StringStream.fresh]

theorem nulFree_isolateRef (p : Int) (n : String) : NulFree (isolateRef p n) ↔ NulFree n := by
  rw [isolateRef_eq]
  simp only [nulFree_append]
  have h1 := nulFree_formatInt64_dec p
  have h2 : NulFree "\x7b\"type\":\"@Isolate\",\"fixedId\":true,\"id\":\"isolates/" := by decide
  have h3 : NulFree "\",\"name\":\"" := by decide
  have h4 : NulFree "\",\"number\":\"" := by decide
  have h5 : NulFree "\"\x7d" := by decide
  tauto

theorem viewFragment_unbound (ip : Int) (r : PlatformViewInfo) (h : r.isolate_id = ip) :
    viewFragment ip r
      = "\x7b\"type\":\"FlutterView\", \"id\": \"" ++ encodeViewId r.view_id ++ "\"\x7d" := by
  rw [viewFragment, h, AppendFlutterView_unbound]
  apply String.ext
  simp [StringStream.fresh]

theorem viewFragment_bound (ip : Int) (r : PlatformViewInfo) (h : r.isolate_id ≠ ip) :
    viewFragment ip r
      = "\x7b\"type\":\"FlutterView\", \"id\": \"" ++ encodeViewId r.view_id ++ "\""
          ++ ",\"isolate\":" ++ isolateRef r.isolate_id r.isolate_name ++ "\x7d" := by
  rw [viewFragment, AppendFlutterView_bound _ _ _ _ _ h]
  apply String.ext
  simp [StringStream.fresh]

theorem nulFree_viewFragment (ip : Int) (r : PlatformViewInfo) :
    NulFree (viewFragment ip r) ↔ (r.isolate_id ≠ ip → NulFree r.isolate_name) := by
  have h1 : NulFree "\x7b\"type\":\"FlutterView\", \"id\": \"" := by decide
  have h2 := nulFree_encodeViewId r.view_id
  have h3 : NulFree "\"\x7d" := by decide
  have h4 : NulFree "\"" := by decide
  have h5 : NulFree ",\"isolate\":" := by decide
  have h6 : NulFree "\x7d" := by decide
  by_cases h : r.isolate_id = ip
  · rw [viewFragment_unbound ip r h]
    simp only [nulFree_append]
    tauto
  · rw [viewFragment_bound ip r h]
    simp only [nulFree_append, nulFree_isolateRef]
    tauto

theorem nulFree_commaJoin (l : List String) (h : ∀ f ∈ l, NulFree f) : NulFree (commaJoin l) := by
  induction l with
  | nil => simp [commaJoin, NulFree]
  | cons a rest ih =>
    cases rest with
    | nil => simpa [commaJoin] using h
    | cons b rest =>
      simp only [commaJoin, nulFree_append]
      refine ⟨⟨h a (List.mem_cons_self _ _), by decide⟩, ih ?_⟩
      intro f hf
      exact h f (List.mem_cons_of_mem _ hf)

theorem nulFree_viewListText (ip : Int) (snap : List PlatformViewInfo)
    (h : ∀ r ∈ snap, r.view_id ≠ 0 → r.isolate_id ≠ ip → NulFree r.isolate_name) :
    NulFree (viewListText ip snap) := by
  simp only [viewListText, nulFree_append]
  refine ⟨⟨by decide, nulFree_commaJoin _ ?_⟩, by decide⟩
  intro f hf
  obtain ⟨r, hr, rfl⟩ := List.mem_map.mp hf
  have hr' : r ∈ snap ∧ r.view_id ≠ 0 := by simpa [nonZeroViews] using hr
  exact (nulFree_viewFragment ip r).mpr (h r hr'.1 hr'.2)

/-! ## The loops -/

theorem commaJoin_cons (a : String) (rest : List String) :
    commaJoin (a :: rest) = a ++ commaTail rest := by
  induction rest generalizing a with
  | nil => apply String.ext; simp [commaJoin, commaTail]
  | cons b rest ih =>
    rw [commaJoin, ih b]
    apply String.ext
    simp [commaTail]

theorem nonZeroViews_cons_zero (it : PlatformViewInfo) (rest : List PlatformViewInfo)
    (h : it.view_id = 0) : nonZeroViews (it :: rest) = nonZeroViews rest := by
  simp [nonZeroViews, h]

theorem nonZeroViews_cons_pos (it : PlatformViewInfo) (rest : List PlatformViewInfo)
    (h : it.view_id ≠ 0) : nonZeroViews (it :: rest) = it :: nonZeroViews rest := by
  simp [nonZeroViews, h]

theorem nonZeroViews_idem (snap : List PlatformViewInfo) :
    nonZeroViews (nonZeroViews snap) = nonZeroViews snap := by
  simp [nonZeroViews]

theorem ListViews_loop_true (ip : Int) : ∀ (snap : List PlatformViewInfo) (s : StringStream),
    (ListViews.loop ip snap true s).str
      = s.str ++ commaTail ((nonZeroViews snap).map (viewFragment ip)) := by
  intro snap
  induction snap with
  | nil => intro s; apply String.ext; simp [ListViews.loop, nonZeroViews, commaTail]
  | cons it rest ih =>
    intro s
    by_cases h : it.view_id = 0
    · rw [ListViews.loop, if_pos h, ih, nonZeroViews_cons_zero it rest h]
    · rw [ListViews.loop, if_neg h, nonZeroViews_cons_pos it rest h]
      simp only [if_true]
      rw [ih, AppendFlutterView_eq]
      apply String.ext
      simp [commaTail, StringStream.putChar]

theorem ListViews_loop_false (ip : Int) : ∀ (snap : List PlatformViewInfo) (s : StringStream),
    (ListViews.loop ip snap false s).str
      = s.str ++ commaJoin ((nonZeroViews snap).map (viewFragment ip)) := by
  intro snap
  induction snap with
  | nil => intro s; apply String.ext; simp [ListViews.loop, nonZeroViews, commaJoin]
  | cons it rest ih =>
    intro s
    by_cases h : it.view_id = 0
    · rw [ListViews.loop, if_pos h, ih, nonZeroViews_cons_zero it rest h]
    · rw [ListViews.loop, if_neg h, nonZeroViews_cons_pos it rest h]
      simp only [Bool.false_eq_true, if_false]
      rw [ListViews_loop_true, AppendFlutterView_eq, List.map_cons, commaJoin_cons]
      apply String.ext
      simp

theorem ListViews_eq (ip : Int) (snap : List PlatformViewInfo) (method : Option String)
    (param_keys param_values : Option (List String)) (num_params : Int) (user_data : Nat) :
    ListViews ip snap method param_keys param_values num_params user_data
      = (true, strdup (viewListText ip snap)) := by
  simp only [ListViews, StringStream.putStr, ListViews_loop_false, viewListText]
  congr 2

theorem SetAssetBundlePath_loop_filter (ip : Int) (h : Nat) :
    ∀ (snap : List PlatformViewInfo) (s : StringStream),
      SetAssetBundlePath.loop ip h (nonZeroViews snap) s = SetAssetBundlePath.loop ip h snap s := by
  intro snap
  induction snap with
  | nil => intro s; rfl
  | cons it rest ih =>
    intro s
    by_cases hz : it.view_id = 0
    · rw [nonZeroViews_cons_zero it rest hz, ih, SetAssetBundlePath.loop.eq_2,
        if_pos (Or.inl hz)]
    · rw [nonZeroViews_cons_pos it rest hz, SetAssetBundlePath.loop, SetAssetBundlePath.loop, ih]

theorem SetAssetBundlePath_loop_zero (ip : Int) :
    ∀ (snap : List PlatformViewInfo) (s : StringStream),
      SetAssetBundlePath.loop ip 0 snap s = s := by
  intro snap
  induction snap with
  | nil => intro s; rfl
  | cons it rest ih =>
    intro s
    rw [SetAssetBundlePath.loop, if_pos (by omega), ih]

theorem SetAssetBundlePath_loop_none (ip : Int) (h : Nat) :
    ∀ (snap : List PlatformViewInfo) (s : StringStream), firstView h snap = none →
      SetAssetBundlePath.loop ip h snap s = s := by
  intro snap
  induction snap with
  | nil => intro s _; rfl
  | cons it rest ih =>
    intro s hf
    simp only [firstView, List.find?_cons] at hf
    split at hf
    · exact absurd hf (by simp)
    · rename_i hne
      have hne' : it.view_id ≠ h := by simpa using hne
      rw [SetAssetBundlePath.loop, if_pos (Or.inr hne'), ih s hf]

theorem SetAssetBundlePath_loop_some (ip : Int) (h : Nat) (h0 : h ≠ 0) (r : PlatformViewInfo) :
    ∀ (snap : List PlatformViewInfo) (s : StringStream), firstView h snap = some r →
      SetAssetBundlePath.loop ip h snap s = ⟨s.str ++ viewFragment ip r, Basefield.dec⟩ := by
  intro snap
  induction snap with
  | nil => intro s hf; simp [firstView] at hf
  | cons it rest ih =>
    intro s hf
    simp only [firstView, List.find?_cons] at hf
    split at hf
    · rename_i heq
      have heq' : it.view_id = h := by simpa using heq
      have hr : it = r := by simpa using hf
      rw [SetAssetBundlePath.loop, if_neg (by omega), AppendFlutterView_eq, ← hr]
    · rename_i hne
      have hne' : it.view_id ≠ h := by simpa using hne
      rw [SetAssetBundlePath.loop, if_pos (Or.inr hne'), ih s hf]

/-! ## Requests -/

theorem SetAssetBundlePath_of_decoded (ip : Int) (snap : List PlatformViewInfo)
    (method : Option String) (param_keys param_values : Option (List String))
    (num_params : Int) (user_data : Nat) (view_id_str : Option String) (h : Nat)
    (hreq : ValueForKey param_keys param_values num_params "viewId" = Except.ok view_id_str)
    (hdec : decodeViewId view_id_str = Except.ok h) :
    SetAssetBundlePath ip snap method param_keys param_values num_params user_data
      = Except.ok (true, strdup ((SetAssetBundlePath.loop ip h snap
          ⟨"\x7b\"type\":\"Success\",\"view\":", Basefield.dec⟩).str ++ "\x7d")) := by
  simp only [SetAssetBundlePath, hreq, hdec]
  rfl

theorem KeyIndex_loop_absent (key : String) (num_params : Int) :
    ∀ (keys : List String) (i : Nat), key ∉ keys →
      (KeyIndex.loop key num_params keys i = Except.ok (-1)
        ∨ KeyIndex.loop key num_params keys i = Except.error Fault.out_of_bounds)
      ∧ (num_params ≤ (i : Int) + keys.length →
        KeyIndex.loop key num_params keys i = Except.ok (-1)) := by
  intro keys
  induction keys with
  | nil =>
    intro i _
    by_cases h : (i : Int) < num_params
    · have e : KeyIndex.loop key num_params [] i = Except.error Fault.out_of_bounds := by
        simp [KeyIndex.loop, h]
      rw [e]
      refine ⟨Or.inr rfl, ?_⟩
      intro hle
      simp at hle
      omega
    · have e : KeyIndex.loop key num_params [] i = Except.ok (-1) := by
        simp [KeyIndex.loop, h]
      rw [e]
      exact ⟨Or.inl rfl, fun _ => rfl⟩
  | cons k rest ih =>
    intro i hmem
    have hk : k ≠ key := fun e => hmem (e ▸ List.mem_cons_self _ _)
    have hrest : key ∉ rest := fun e => hmem (List.mem_cons_of_mem _ e)
    by_cases h : (i : Int) < num_params
    · have e : KeyIndex.loop key num_params (k :: rest) i
          = KeyIndex.loop key num_params rest (i + 1) := by
        simp [KeyIndex.loop, h, hk]
      rw [e]
      refine ⟨(ih (i + 1) hrest).1, ?_⟩
      intro hle
      apply (ih (i + 1) hrest).2
      simp only [List.length_cons] at hle
      push_cast at hle ⊢
      omega
    · have e : KeyIndex.loop key num_params (k :: rest) i = Except.ok (-1) := by
        simp [KeyIndex.loop, h]
      rw [e]
      exact ⟨Or.inl rfl, fun _ => rfl⟩

theorem ValueForKey_absent (param_keys param_values : Option (List String)) (num_params : Int)
    (key : String) (hkeys : ∀ keys, param_keys = some keys → key ∉ keys) :
    (ValueForKey param_keys param_values num_params key = Except.ok none
      ∨ ValueForKey param_keys param_values num_params key = Except.error Fault.out_of_bounds)
    ∧ ((∀ keys, param_keys = some keys → num_params ≤ (keys.length : Int)) →
      ValueForKey param_keys param_values num_params key = Except.ok none) := by
  cases param_keys with
  | none => exact ⟨Or.inl rfl, fun _ => rfl⟩
  | some keys =>
    have hl := KeyIndex_loop_absent key num_params keys 0 (hkeys keys rfl)
    have hok : KeyIndex (some keys) num_params key = Except.ok (-1) →
        ValueForKey (some keys) param_values num_params key = Except.ok none := by
      intro e
      simp only [ValueForKey, e]
      rfl
    have herr : KeyIndex (some keys) num_params key = Except.error Fault.out_of_bounds →
        ValueForKey (some keys) param_values num_params key
          = Except.error Fault.out_of_bounds := by
      intro e
      simp only [ValueForKey, e]
    constructor
    · rcases hl.1 with e | e
      · exact Or.inl (hok e)
      · exact Or.inr (herr e)
    · intro hlen
      apply hok
      apply hl.2
      have := hlen keys rfl
      simpa using this

/-! ## Occurrences of the isolate key -/

theorem not_occurs_of_not_mem (needle text : String) (c : Char) (hc : c ∈ needle.data)
    (ht : c ∉ text.data) : ¬ Occurs needle text := by
  intro h
  exact ht (h.subset hc)

theorem s_not_mem_encodeViewId (v : Nat) : 's' ∉ (encodeViewId v).data := by
  intro h
  simp only [encodeViewId, String.data_append, List.mem_append] at h
  rcases h with h | h
  · exact absurd h (by decide)
  · have := (hex_spec v).2.1 's' h
    exact absurd this (by decide)

theorem occurs_isolate_iff (ip : Int) (r : PlatformViewInfo) :
    Occurs "\"isolate\"" (viewFragment ip r) ↔ r.isolate_id ≠ ip := by
  constructor
  · intro h hp
    rw [viewFragment_unbound ip r hp] at h
    refine not_occurs_of_not_mem _ _ 's' (by decide) ?_ h
    simp only [String.data_append, List.mem_append, not_or]
    exact ⟨⟨by decide, s_not_mem_encodeViewId _⟩, by decide⟩
  · intro hp
    rw [viewFragment_bound ip r hp]
    refine ⟨("\x7b\"type\":\"FlutterView\", \"id\": \"" ++ encodeViewId r.view_id ++ "\",").data,
      (":" ++ isolateRef r.isolate_id r.isolate_name ++ "\x7d").data, ?_⟩
    simp

/-! ## Parameter lookup -/

theorem KeyIndex_loop_found (key : String) (num_params : Int) :
    ∀ (rest : List String) (i d : Nat), rest[d]? = some key →
      (∀ j, j < d → rest[j]? ≠ some key) → ((i + d : Nat) : Int) < num_params →
      KeyIndex.loop key num_params rest i = Except.ok ((i + d : Nat) : Int) := by
  intro rest
  induction rest with
  | nil => intro i d h; simp at h
  | cons k rest ih =>
    intro i d hd hbefore hlt
    have hi : (i : Int) < num_params := by push_cast at hlt; omega
    cases d with
    | zero =>
      have hk : k = key := by simpa using hd
      simp [KeyIndex.loop, hi, hk]
    | succ d =>
      have hk : k ≠ key := by
        have := hbefore 0 (Nat.succ_pos d)
        simpa using this
      have e : KeyIndex.loop key num_params (k :: rest) i
          = KeyIndex.loop key num_params rest (i + 1) := by
        simp [KeyIndex.loop, hi, hk]
      rw [e, ih (i + 1) d (by simpa using hd)
        (fun j hj => by simpa using hbefore (j + 1) (Nat.succ_lt_succ hj))
        (by push_cast at hlt ⊢; omega)]
      congr 2
      omega

theorem KeyIndex_loop_no_match (key : String) (num_params : Int) :
    ∀ (rest : List String) (i : Nat), num_params ≤ (i : Int) + rest.length →
      (∀ d : Nat, ((i + d : Nat) : Int) < num_params → rest[d]? ≠ some key) →
      KeyIndex.loop key num_params rest i = Except.ok (-1) := by
  intro rest
  induction rest with
  | nil =>
    intro i hlen _
    have hi : ¬ (i : Int) < num_params := by simp at hlen; omega
    simp [KeyIndex.loop, hi]
  | cons k rest ih =>
    intro i hlen hno
    by_cases hi : (i : Int) < num_params
    · have hk : k ≠ key := by
        have := hno 0 (by simpa using hi)
        simpa using this
      have e : KeyIndex.loop key num_params (k :: rest) i
          = KeyIndex.loop key num_params rest (i + 1) := by
        simp [KeyIndex.loop, hi, hk]
      rw [e]
      apply ih (i + 1)
      · simp only [List.length_cons] at hlen
        push_cast at hlen ⊢
        omega
      · intro d hd
        have := hno (d + 1) (by push_cast at hd ⊢; omega)
        simpa using this
    · simp [KeyIndex.loop, hi]

theorem KeyIndex_loop_range (key : String) (num_params : Int) :
    ∀ (rest : List String) (i : Nat) (index : Int),
      KeyIndex.loop key num_params rest i = Except.ok index → index = -1 ∨ 0 ≤ index := by
  intro rest
  induction rest with
  | nil =>
    intro i index h
    by_cases hi : (i : Int) < num_params
    · simp [KeyIndex.loop, hi] at h
    · simp [KeyIndex.loop, hi] at h
      exact Or.inl h.symm
  | cons k rest ih =>
    intro i index h
    by_cases hi : (i : Int) < num_params
    · by_cases hk : k = key
      · simp [KeyIndex.loop, hi, hk] at h
        exact Or.inr (by omega)
      · have e : KeyIndex.loop key num_params (k :: rest) i
            = KeyIndex.loop key num_params rest (i + 1) := by
          simp [KeyIndex.loop, hi, hk]
        rw [e] at h
        exact ih (i + 1) index h
    · simp [KeyIndex.loop, hi] at h
      exact Or.inl h.symm

theorem KeyIndex_range (param_keys : Option (List String)) (num_params : Int) (key : String)
    (index : Int) (h : KeyIndex param_keys num_params key = Except.ok index) :
    index = -1 ∨ 0 ≤ index := by
  cases param_keys with
  | none =>
    simp [KeyIndex] at h
    exact Or.inl h.symm
  | some keys => exact KeyIndex_loop_range key num_params keys 0 index h

theorem ValueForKey_none_iff (param_keys param_values : Option (List String))
    (num_params : Int) (key : String) :
    ValueForKey param_keys param_values num_params key = Except.ok none
      ↔ KeyIndex param_keys num_params key = Except.ok (-1) := by
  constructor
  · intro h
    cases hk : KeyIndex param_keys num_params key with
    | error e => simp [ValueForKey, hk] at h
    | ok index =>
      rcases KeyIndex_range param_keys num_params key index hk with hi | hi
      · rw [hi]
      · have hneg : ¬ index < 0 := by omega
        simp only [ValueForKey, hk, if_neg hneg] at h
        cases param_values with
        | none => simp at h
        | some values =>
          simp only [List.get?_eq_getElem?] at h
          cases hv : values[index.toNat]? with
          | none => rw [hv] at h; simp at h
          | some v => rw [hv] at h; simp at h
  · intro h
    simp [ValueForKey, h]

theorem ValueForKey_at (param_keys : Option (List String)) (values : List String)
    (num_params : Int) (key : String) (i : Nat) (v : String)
    (hk : KeyIndex param_keys num_params key = Except.ok (i : Int))
    (hv : values[i]? = some v) :
    ValueForKey param_keys (some values) num_params key = Except.ok (some v) := by
  have hneg : ¬ ((i : Int) < 0) := by omega
  simp [ValueForKey, hk, hv]

/-! ## Decoding of other texts -/

theorem SetAssetBundlePath_loop_no_match (ip : Int) (h : Nat) :
    ∀ (snap : List PlatformViewInfo) (s : StringStream),
      (∀ r ∈ snap, r.view_id ≠ 0 → r.view_id ≠ h) → SetAssetBundlePath.loop ip h snap s = s := by
  intro snap
  induction snap with
  | nil => intro s _; rfl
  | cons it rest ih =>
    intro s hno
    have hskip : it.view_id = 0 ∨ it.view_id ≠ h := by
      by_cases hz : it.view_id = 0
      · exact Or.inl hz
      · exact Or.inr (hno it (List.mem_cons_self _ _) hz)
    rw [SetAssetBundlePath.loop, if_pos hskip]
    exact ih s (fun r hr => hno r (List.mem_cons_of_mem _ hr))

theorem SetAssetBundlePath_of_fault (ip : Int) (snap : List PlatformViewInfo)
    (method : Option String) (param_keys param_values : Option (List String))
    (num_params : Int) (user_data : Nat) (view_id_str : Option String) (e : Fault)
    (hreq : ValueForKey param_keys param_values num_params "viewId" = Except.ok view_id_str)
    (hdec : decodeViewId view_id_str = Except.error e) :
    SetAssetBundlePath ip snap method param_keys param_values num_params user_data
      = Except.error e := by
  simp only [SetAssetBundlePath, hreq, hdec]

theorem hexChars_isDigitOf : ∀ c ∈ "0123456789abcdefABCDEF".data, isDigitOf 16 c = true := by
  decide

theorem stoull_hex_digits (d : List Char) (hne : d ≠ [])
    (hall : ∀ c ∈ d, isDigitOf 16 c = true) (hv : digitsValue 16 d < wordSize) :
    stoull (String.mk ('0' :: 'x' :: d)) 16 = Except.ok (digitsValue 16 d) := by
  cases d with
  | nil => exact absurd rfl hne
  | cons c t =>
    have hc : isDigitOf 16 c = true := hall c (List.mem_cons_self _ _)
    have htake : List.takeWhile (isDigitOf 16) (c :: t) = c :: t :=
      List.takeWhile_eq_self_iff.mpr hall
    have hsp : List.dropWhile isspace ('0' :: 'x' :: c :: t) = '0' :: 'x' :: c :: t := by
      rw [List.dropWhile_cons]
      have : isspace '0' = false := by decide
      simp [this]
    have hsign : stripSign ('0' :: 'x' :: c :: t) = (false, '0' :: 'x' :: c :: t) := by
      have h1 : ('0' : Char) ≠ '-' := by decide
      have h2 : ('0' : Char) ≠ '+' := by decide
      simp [stripSign, h1, h2]
    have hmark : stripHexMark 16 ('0' :: 'x' :: c :: t) = c :: t := by
      simp [stripHexMark, hc]
    have hnot : ¬ wordSize ≤ digitsValue 16 (c :: t) := by omega
    unfold stoull
    simp only [hsp, hsign, hmark, htake]
    rw [if_neg (by simp), if_neg hnot]
    simp

theorem ListViews_single_bound (ip : Int) (r : PlatformViewInfo) (method : Option String)
    (param_keys param_values : Option (List String)) (num_params : Int) (user_data : Nat)
    (hip : r.isolate_id ≠ ip) (h0 : r.isolate_id ≠ 0) :
    ListViews ip [r] method param_keys param_values num_params user_data
      = ListViews 0 [r] method param_keys param_values num_params user_data := by
  have hfrag : viewFragment ip r = viewFragment 0 r := by
    rw [viewFragment_bound ip r hip, viewFragment_bound 0 r h0]
  have hmap : (nonZeroViews [r]).map (viewFragment ip) = (nonZeroViews [r]).map (viewFragment 0) := by
    apply List.map_congr_left
    intro x hx
    have hx' : x = r := by
      have := List.mem_of_mem_filter hx
      simpa using this
    rw [hx', hfrag]
  rw [ListViews_eq, ListViews_eq, viewListText, viewListText, hmap]

/-! ## The claims -/

/-- C1: the view id that `AppendFlutterView` writes for a handle below `2 ^ 64` (zero or not)
is the text `_flutterView/0x` followed by the handle in lowercase hexadecimal, and the decoder
of `SetAssetBundlePath`, which drops `kViewIdPrefxLength = 13` characters and parses the rest
in base 16 as `std::stoull` does, maps that text back to the handle. -/
theorem view_id_round_trip (ILLEGAL_PORT : Int) (stream : StringStream) (v : Nat)
    (isolate_id : Int) (isolate_name : String) (hv : v < wordSize) :
    kViewIdPrefxLength = 13
    ∧ (∃ rest, (AppendFlutterView ILLEGAL_PORT stream v isolate_id isolate_name).str
        = stream.str ++ "\x7b\"type\":\"FlutterView\", \"id\": \"" ++ encodeViewId v ++ "\""
          ++ rest)
    ∧ decodeViewId (some (encodeViewId v)) = Except.ok v := by
  refine ⟨rfl, ?_, decode_encode v hv⟩
  by_cases hp : isolate_id = ILLEGAL_PORT
  · subst hp
    refine ⟨"\x7d", ?_⟩
    rw [AppendFlutterView_unbound]
    apply String.ext
    simp
  · refine ⟨",\"isolate\":" ++ isolateRef isolate_id isolate_name ++ "\x7d", ?_⟩
    rw [AppendFlutterView_bound _ _ _ _ _ hp]
    apply String.ext
    simp

/-- Witness of C1 at the largest handle, `2 ^ 64 - 1`, written on a new stream for a view
without isolate (sentinel 0). -/
theorem view_id_round_trip_witness :
    18446744073709551615 < wordSize
    ∧ kViewIdPrefxLength = 13
    ∧ (∃ rest, (AppendFlutterView 0 StringStream.fresh 18446744073709551615 0 "").str
        = StringStream.fresh.str ++ "\x7b\"type\":\"FlutterView\", \"id\": \""
          ++ encodeViewId 18446744073709551615 ++ "\"" ++ rest)
    ∧ decodeViewId (some (encodeViewId 18446744073709551615))
        = Except.ok 18446744073709551615 :=
  ⟨by decide, view_id_round_trip 0 StringStream.fresh 18446744073709551615 0 "" (by decide)⟩

/-- C2: a record with handle 0 leaves no trace in a response: `ListViews` answers a snapshot
as it answers the snapshot without its zero-handle records, and so does `SetAssetBundlePath`
for every request, whatever its `viewId` decodes to (0 included). -/
theorem zero_handle_never_rendered (ILLEGAL_PORT : Int) (platform_views : List PlatformViewInfo)
    (method : Option String) (param_keys param_values : Option (List String))
    (num_params : Int) (user_data : Nat) :
    ListViews ILLEGAL_PORT platform_views method param_keys param_values num_params user_data
      = ListViews ILLEGAL_PORT (nonZeroViews platform_views) method param_keys param_values
          num_params user_data
    ∧ SetAssetBundlePath ILLEGAL_PORT platform_views method param_keys param_values num_params
        user_data
      = SetAssetBundlePath ILLEGAL_PORT (nonZeroViews platform_views) method param_keys
          param_values num_params user_data := by
  constructor
  · rw [ListViews_eq, ListViews_eq, viewListText, viewListText, nonZeroViews_idem]
  · simp only [SetAssetBundlePath, SetAssetBundlePath_loop_filter]

/-- C3, refuted as stated: for the snapshot of one view with handle 1 and an isolate 7 whose
name is `a`, NUL, `b` (sentinel 0), the response is not the opening text, the fragment and the
closing text: `strdup` ends the copy at the NUL, so the response stops inside the name. -/
theorem ListViews_nul_counterexample :
    (ListViews 0 [⟨1, 7, "a\x00b"⟩] none none none 0 0).2
        ≠ "\x7b\"type\":\"FlutterViewList\",\"views\":[" ++ viewFragment 0 ⟨1, 7, "a\x00b"⟩
            ++ "]\x7d"
    ∧ (ListViews 0 [⟨1, 7, "a\x00b"⟩] none none none 0 0).2
        = "\x7b\"type\":\"FlutterViewList\",\"views\":[\x7b\"type\":\"FlutterView\", \"id\": \"_flutterView/0x1\",\"isolate\":\x7b\"type\":\"@Isolate\",\"fixedId\":true,\"id\":\"isolates/7\",\"name\":\"a" := by
  constructor
  · decide
  · rfl

/-- C3, amended: the `ListViews` response is the copy, up to the first NUL, of the opening text
followed by the fragments of the records with non-zero handle, in snapshot order and joined by
single commas, followed by the closing text; when no isolate name of a rendered record holds a
NUL it is exactly that text.  There is one fragment per non-zero record, and a fragment holds
the `"isolate"` key exactly when its record has an isolate. -/
theorem ListViews_response (ILLEGAL_PORT : Int) (platform_views : List PlatformViewInfo)
    (method : Option String) (param_keys param_values : Option (List String))
    (num_params : Int) (user_data : Nat) :
    (ListViews ILLEGAL_PORT platform_views method param_keys param_values num_params
        user_data).2 = strdup (viewListText ILLEGAL_PORT platform_views)
    ∧ ((∀ r ∈ platform_views, r.view_id ≠ 0 → r.isolate_id ≠ ILLEGAL_PORT →
          NulFree r.isolate_name) →
        (ListViews ILLEGAL_PORT platform_views method param_keys param_values num_params
          user_data).2
          = "\x7b\"type\":\"FlutterViewList\",\"views\":["
            ++ commaJoin ((nonZeroViews platform_views).map (viewFragment ILLEGAL_PORT))
            ++ "]\x7d")
    ∧ ((nonZeroViews platform_views).map (viewFragment ILLEGAL_PORT)).length
        = (platform_views.filter (fun r => decide (r.view_id ≠ 0))).length
    ∧ (∀ r, Occurs "\"isolate\"" (viewFragment ILLEGAL_PORT r)
        ↔ r.isolate_id ≠ ILLEGAL_PORT) := by
  refine ⟨by rw [ListViews_eq], ?_, by simp [nonZeroViews], occurs_isolate_iff ILLEGAL_PORT⟩
  intro h
  rw [ListViews_eq]
  exact strdup_of_nulFree _ (nulFree_viewListText ILLEGAL_PORT platform_views h)

/-- Witness of C3 on the snapshot of the specification (sentinel 0): a view 1 without isolate
and a view 2 with the isolate 7 named `main`; the same snapshot between two records with handle
0 gives the same response, without a comma at either end. -/
theorem ListViews_response_witness :
    (∀ r ∈ [(⟨1, 0, ""⟩ : PlatformViewInfo), ⟨2, 7, "main"⟩], r.view_id ≠ 0 → r.isolate_id ≠ 0 →
        NulFree r.isolate_name)
    ∧ (ListViews 0 [⟨1, 0, ""⟩, ⟨2, 7, "main"⟩] none none none 0 0).2
        = "\x7b\"type\":\"FlutterViewList\",\"views\":[\x7b\"type\":\"FlutterView\", \"id\": \"_flutterView/0x1\"\x7d,\x7b\"type\":\"FlutterView\", \"id\": \"_flutterView/0x2\",\"isolate\":\x7b\"type\":\"@Isolate\",\"fixedId\":true,\"id\":\"isolates/7\",\"name\":\"main\",\"number\":\"7\"\x7d\x7d]\x7d"
    ∧ (ListViews 0 [⟨0, 9, "x"⟩, ⟨1, 0, ""⟩, ⟨2, 7, "main"⟩, ⟨0, 0, ""⟩] none none none 0 0).2
        = (ListViews 0 [⟨1, 0, ""⟩, ⟨2, 7, "main"⟩] none none none 0 0).2
    ∧ ¬ Occurs "\"isolate\"" (viewFragment 0 ⟨1, 0, ""⟩)
    ∧ Occurs "\x7b\"type\":\"@Isolate\",\"fixedId\":true,\"id\":\"isolates/7\",\"name\":\"main\",\"number\":\"7\"\x7d"
        (viewFragment 0 ⟨2, 7, "main"⟩) :=
  have hnul : ∀ r ∈ [(⟨1, 0, ""⟩ : PlatformViewInfo), ⟨2, 7, "main"⟩], r.view_id ≠ 0 →
      r.isolate_id ≠ 0 → NulFree r.isolate_name := by decide
  ⟨hnul,
    ((ListViews_response 0 [⟨1, 0, ""⟩, ⟨2, 7, "main"⟩] none none none 0 0).2.1 hnul).trans rfl,
    ((ListViews_response 0 [⟨0, 9, "x"⟩, ⟨1, 0, ""⟩, ⟨2, 7, "main"⟩, ⟨0, 0, ""⟩] none none none
      0 0).1).trans
      ((ListViews_response 0 [⟨1, 0, ""⟩, ⟨2, 7, "main"⟩] none none none 0 0).1).symm,
    fun h => ((ListViews_response 0 [] none none none 0 0).2.2.2 ⟨1, 0, ""⟩).mp h rfl,
    ⟨"\x7b\"type\":\"FlutterView\", \"id\": \"_flutterView/0x2\",\"isolate\":".data, "\x7d".data,
      rfl⟩⟩

/-- C4: on the empty snapshot, and on every snapshot whose records all have handle 0,
`ListViews` returns exactly the empty view list. -/
theorem ListViews_empty (ILLEGAL_PORT : Int) (platform_views : List PlatformViewInfo)
    (method : Option String) (param_keys param_values : Option (List String))
    (num_params : Int) (user_data : Nat) :
    (ListViews ILLEGAL_PORT [] method param_keys param_values num_params user_data).2
      = "\x7b\"type\":\"FlutterViewList\",\"views\":[]\x7d"
    ∧ ((∀ r ∈ platform_views, r.view_id = 0) →
        (ListViews ILLEGAL_PORT platform_views method param_keys param_values num_params
          user_data).2 = "\x7b\"type\":\"FlutterViewList\",\"views\":[]\x7d") := by
  refine ⟨rfl, ?_⟩
  intro h
  have hnil : nonZeroViews platform_views = [] := by
    simp only [nonZeroViews, List.filter_eq_nil_iff]
    intro r hr
    simp [h r hr]
  rw [ListViews_eq, viewListText, hnil]
  rfl

/-- Witness of C4: two records with handle 0, one of them with an isolate (sentinel 0). -/
theorem ListViews_empty_witness :
    (∀ r ∈ [(⟨0, 7, "main"⟩ : PlatformViewInfo), ⟨0, 0, ""⟩], r.view_id = 0)
    ∧ (ListViews 0 [⟨0, 7, "main"⟩, ⟨0, 0, ""⟩] none (some ["a"]) (some ["b"]) 1 0).2
        = "\x7b\"type\":\"FlutterViewList\",\"views\":[]\x7d" :=
  have hz : ∀ r ∈ [(⟨0, 7, "main"⟩ : PlatformViewInfo), ⟨0, 0, ""⟩], r.view_id = 0 := by decide
  ⟨hz, (ListViews_empty 0 [⟨0, 7, "main"⟩, ⟨0, 0, ""⟩] none (some ["a"]) (some ["b"]) 1 0).2 hz⟩

/-- C5, refuted as stated: the fragment of the view 1 without isolate (sentinel 0) is not the
text without white space; it holds a space. -/
theorem unbound_fragment_counterexample :
    (AppendFlutterView 0 StringStream.fresh 1 0 "").str
        ≠ "\x7b\"type\":\"FlutterView\",\"id\":\"_flutterView/0x1\"\x7d"
    ∧ ' ' ∈ (AppendFlutterView 0 StringStream.fresh 1 0 "").str.data := by
  decide

/-- C5, amended: for a view without isolate `AppendFlutterView` writes, character for
character, `{"type":"FlutterView", "id": "_flutterView/0x<hex>"}` with one space behind the
comma and one behind the colon of `"id"`, and no other white space.  The key `"type"` comes
before `"id"`, and `<hex>` is the handle in hexadecimal: its digits have the value of the handle,
they are taken from `0123456789abcdef`, and the first is not `0` when the handle is not zero. -/
theorem unbound_fragment_text (ILLEGAL_PORT : Int) (stream : StringStream) (v : Nat)
    (isolate_name : String) :
    (AppendFlutterView ILLEGAL_PORT stream v ILLEGAL_PORT isolate_name).str
      = stream.str ++ ("\x7b\"type\":\"FlutterView\", \"id\": \"_flutterView/0x"
          ++ String.mk (Nat.toDigits 16 v) ++ "\"\x7d")
    ∧ digitsValue 16 (Nat.toDigits 16 v) = v
    ∧ (∀ c ∈ Nat.toDigits 16 v, c ∈ "0123456789abcdef".data)
    ∧ (v ≠ 0 → (Nat.toDigits 16 v).head? ≠ some '0')
    ∧ (viewFragment ILLEGAL_PORT ⟨v, ILLEGAL_PORT, isolate_name⟩).data.filter isspace
        = [' ', ' '] := by
  refine ⟨?_, (hex_spec v).1, hex_lowercase v, hex_no_leading_zero v, ?_⟩
  · rw [AppendFlutterView_unbound]
    apply String.ext
    simp [encodeViewId]
  · rw [viewFragment_unbound ILLEGAL_PORT ⟨v, ILLEGAL_PORT, isolate_name⟩ rfl]
    simp only [encodeViewId, String.data_append, List.filter_append, hex_no_space]
    rfl

/-- Witness of C5 at the handle 255 (sentinel 0): the id is `_flutterView/0xff`. -/
theorem unbound_fragment_text_witness :
    (255 ≠ 0)
    ∧ (AppendFlutterView 0 StringStream.fresh 255 0 "").str
        = "\x7b\"type\":\"FlutterView\", \"id\": \"_flutterView/0xff\"\x7d"
    ∧ (Nat.toDigits 16 255).head? ≠ some '0' :=
  ⟨by decide, ((unbound_fragment_text 0 StringStream.fresh 255 "").1).trans rfl,
    (unbound_fragment_text 0 StringStream.fresh 255 "").2.2.2.1 (by decide)⟩

/-- C6: the fragment holds an isolate member exactly when the isolate id differs from the
sentinel.  With `U` the fragment of the handle without isolate, `U` ends in `}`; when the id is
the sentinel the fragment is `U` and the key `"isolate"` does not occur in it; when the id is
not the sentinel the fragment is `U` without its final `}`, followed by `,"isolate":`, the
isolate reference of the id and name, and `}`. -/
theorem isolate_member_iff_bound (ILLEGAL_PORT : Int) (stream : StringStream) (v : Nat)
    (p : Int) (n : String) :
    viewFragment ILLEGAL_PORT ⟨v, ILLEGAL_PORT, n⟩
      = "\x7b\"type\":\"FlutterView\", \"id\": \"" ++ encodeViewId v ++ "\"" ++ "\x7d"
    ∧ (p = ILLEGAL_PORT →
        (AppendFlutterView ILLEGAL_PORT stream v p n).str
          = stream.str ++ viewFragment ILLEGAL_PORT ⟨v, ILLEGAL_PORT, n⟩
        ∧ ¬ Occurs "\"isolate\"" (viewFragment ILLEGAL_PORT ⟨v, ILLEGAL_PORT, n⟩))
    ∧ (p ≠ ILLEGAL_PORT →
        (AppendFlutterView ILLEGAL_PORT stream v p n).str
          = stream.str ++ ("\x7b\"type\":\"FlutterView\", \"id\": \"" ++ encodeViewId v ++ "\""
              ++ ",\"isolate\":" ++ (AppendIsolateRef StringStream.fresh p n).str ++ "\x7d"))
    ∧ (Occurs "\"isolate\"" (viewFragment ILLEGAL_PORT ⟨v, p, n⟩) ↔ p ≠ ILLEGAL_PORT) := by
  refine ⟨?_, ?_, ?_, occurs_isolate_iff ILLEGAL_PORT ⟨v, p, n⟩⟩
  · rw [viewFragment_unbound ILLEGAL_PORT ⟨v, ILLEGAL_PORT, n⟩ rfl]
    apply String.ext
    simp
  · intro hp
    subst hp
    refine ⟨by rw [AppendFlutterView_eq], ?_⟩
    intro h
    exact (occurs_isolate_iff p ⟨v, p, n⟩).mp h rfl
  · intro hp
    rw [AppendFlutterView_bound _ _ _ _ _ hp]
    rfl

/-- Witness of C6 (sentinel 0): the view 2 with the isolate 7 named `main`, and the same view
without isolate. -/
theorem isolate_member_iff_bound_witness :
    ((0 : Int) = 0 ∧ (7 : Int) ≠ 0)
    ∧ ((AppendFlutterView 0 StringStream.fresh 2 0 "main").str
        = "\x7b\"type\":\"FlutterView\", \"id\": \"_flutterView/0x2\"\x7d"
      ∧ ¬ Occurs "\"isolate\"" (viewFragment 0 ⟨2, 0, "main"⟩))
    ∧ (AppendFlutterView 0 StringStream.fresh 2 7 "main").str
        = "\x7b\"type\":\"FlutterView\", \"id\": \"_flutterView/0x2\",\"isolate\":\x7b\"type\":\"@Isolate\",\"fixedId\":true,\"id\":\"isolates/7\",\"name\":\"main\",\"number\":\"7\"\x7d\x7d" :=
  ⟨⟨rfl, by decide⟩,
    ⟨((isolate_member_iff_bound 0 StringStream.fresh 2 0 "main").2.1 rfl).1.trans rfl,
      ((isolate_member_iff_bound 0 StringStream.fresh 2 0 "main").2.1 rfl).2⟩,
    ((isolate_member_iff_bound 0 StringStream.fresh 2 7 "main").2.2.1 (by decide)).trans rfl⟩

/-- C7: on a stream in decimal mode `AppendIsolateRef` writes exactly
`{"type":"@Isolate","fixedId":true,"id":"isolates/<p>","name":"<n>","number":"<p>"}` with the
id in decimal in both places, and `AppendFlutterView` writes that same text for the isolate of a
view, after the hexadecimal handle, whatever the mode of the stream it is given. -/
theorem isolate_ref_text (p : Int) (n : String) :
    (∀ stream : StringStream, stream.basefield = Basefield.dec →
      (AppendIsolateRef stream p n).str
        = stream.str ++ ("\x7b\"type\":\"@Isolate\",\"fixedId\":true,\"id\":\"isolates/"
            ++ toString p ++ "\",\"name\":\"" ++ n ++ "\",\"number\":\"" ++ toString p
            ++ "\"\x7d"))
    ∧ (∀ (ILLEGAL_PORT : Int) (stream : StringStream) (v : Nat), p ≠ ILLEGAL_PORT →
      (AppendFlutterView ILLEGAL_PORT stream v p n).str
        = stream.str ++ ("\x7b\"type\":\"FlutterView\", \"id\": \"_flutterView/0x"
            ++ String.mk (Nat.toDigits 16 v) ++ "\",\"isolate\":"
            ++ ("\x7b\"type\":\"@Isolate\",\"fixedId\":true,\"id\":\"isolates/"
              ++ toString p ++ "\",\"name\":\"" ++ n ++ "\",\"number\":\"" ++ toString p
              ++ "\"\x7d") ++ "\x7d")) := by
  constructor
  · intro stream hdec
    rw [AppendIsolateRef_eq, hdec, formatInt64_dec_eq_toString]
  · intro ip stream v hp
    rw [AppendFlutterView_bound _ _ _ _ _ hp, isolateRef_eq, formatInt64_dec_eq_toString]
    apply String.ext
    simp [encodeViewId]

/-- Witness of C7 (sentinel 0): the handle 255 with the isolate 255 gives the id `0xff` and
`isolates/255`, also on a stream left in hexadecimal mode; a negative id keeps its sign. -/
theorem isolate_ref_text_witness :
    (StringStream.fresh.basefield = Basefield.dec ∧ (255 : Int) ≠ 0)
    ∧ (AppendIsolateRef StringStream.fresh (-255) "main").str
        = "\x7b\"type\":\"@Isolate\",\"fixedId\":true,\"id\":\"isolates/-255\",\"name\":\"main\",\"number\":\"-255\"\x7d"
    ∧ (AppendFlutterView 0 ⟨"", Basefield.hex⟩ 255 255 "main").str
        = "\x7b\"type\":\"FlutterView\", \"id\": \"_flutterView/0xff\",\"isolate\":\x7b\"type\":\"@Isolate\",\"fixedId\":true,\"id\":\"isolates/255\",\"name\":\"main\",\"number\":\"255\"\x7d\x7d" :=
  ⟨⟨rfl, by decide⟩,
    ((isolate_ref_text (-255) "main").1 StringStream.fresh rfl).trans (by decide),
    ((isolate_ref_text 255 "main").2 0 ⟨"", Basefield.hex⟩ 255 (by decide)).trans (by decide)⟩

/-- C8, refuted as stated: for the snapshot of one view with handle 2 and an isolate 7 whose
name is `a`, NUL, `b` (sentinel 0), the request `viewId = _flutterView/0x2` is not answered by
the Success text around the fragment of the view: `strdup` ends the copy at the NUL. -/
theorem SetAssetBundlePath_nul_counterexample :
    SetAssetBundlePath 0 [⟨2, 7, "a\x00b"⟩] none (some ["viewId"]) (some ["_flutterView/0x2"]) 1 0
        ≠ Except.ok (true, "\x7b\"type\":\"Success\",\"view\":"
            ++ viewFragment 0 ⟨2, 7, "a\x00b"⟩ ++ "\x7d")
    ∧ SetAssetBundlePath 0 [⟨2, 7, "a\x00b"⟩] none (some ["viewId"]) (some ["_flutterView/0x2"])
        1 0
        = Except.ok (true, "\x7b\"type\":\"Success\",\"view\":\x7b\"type\":\"FlutterView\", \"id\": \"_flutterView/0x2\",\"isolate\":\x7b\"type\":\"@Isolate\",\"fixedId\":true,\"id\":\"isolates/7\",\"name\":\"a") := by
  constructor
  · decide
  · rfl

/-- C8, amended: when the first `viewId` value of the request is `_flutterView/0x` followed by
the hexadecimal text of a non-zero handle that occurs in the snapshot, `SetAssetBundlePath`
returns success and the copy, up to the first NUL, of `{"type":"Success","view":F}`, where `F`
is the fragment of the first record with that handle and of no other; it is exactly that text
when the record has no isolate or an isolate name without NUL.  `F` is the text that
`ListViews` writes for the record. -/
theorem SetAssetBundlePath_found (ILLEGAL_PORT : Int) (platform_views : List PlatformViewInfo)
    (method : Option String) (param_keys param_values : Option (List String))
    (num_params : Int) (user_data : Nat) (h : Nat) (r : PlatformViewInfo)
    (hreq : ValueForKey param_keys param_values num_params "viewId"
      = Except.ok (some (encodeViewId h)))
    (h0 : h ≠ 0) (hlt : h < wordSize) (hfirst : firstView h platform_views = some r) :
    SetAssetBundlePath ILLEGAL_PORT platform_views method param_keys param_values num_params
        user_data
      = Except.ok (true, strdup ("\x7b\"type\":\"Success\",\"view\":"
          ++ viewFragment ILLEGAL_PORT r ++ "\x7d"))
    ∧ ((r.isolate_id ≠ ILLEGAL_PORT → NulFree r.isolate_name) →
        SetAssetBundlePath ILLEGAL_PORT platform_views method param_keys param_values
            num_params user_data
          = Except.ok (true, "\x7b\"type\":\"Success\",\"view\":"
              ++ viewFragment ILLEGAL_PORT r ++ "\x7d"))
    ∧ (ListViews ILLEGAL_PORT [r] method param_keys param_values num_params user_data).2
        = strdup ("\x7b\"type\":\"FlutterViewList\",\"views\":["
            ++ viewFragment ILLEGAL_PORT r ++ "]\x7d") := by
  have hmain : SetAssetBundlePath ILLEGAL_PORT platform_views method param_keys param_values
      num_params user_data
      = Except.ok (true, strdup ("\x7b\"type\":\"Success\",\"view\":"
          ++ viewFragment ILLEGAL_PORT r ++ "\x7d")) := by
    rw [SetAssetBundlePath_of_decoded ILLEGAL_PORT platform_views method param_keys param_values
      num_params user_data _ h hreq (decode_encode h hlt),
      SetAssetBundlePath_loop_some ILLEGAL_PORT h h0 r platform_views _ hfirst]
  have hr : r.view_id = h := by
    have := List.find?_some hfirst
    simpa using this
  refine ⟨hmain, ?_, ?_⟩
  · intro hn
    rw [hmain, strdup_of_nulFree]
    simp only [nulFree_append]
    exact ⟨⟨by decide, (nulFree_viewFragment ILLEGAL_PORT r).mpr hn⟩, by decide⟩
  · rw [ListViews_eq, viewListText, nonZeroViews_cons_pos r [] (by omega)]
    rfl

/-- Witness of C8 on the snapshot of the specification followed by a second record with the
handle 2 (sentinel 0): the response holds the fragment of the first record with handle 2. -/
theorem SetAssetBundlePath_found_witness :
    (ValueForKey (some ["viewId"]) (some ["_flutterView/0x2"]) 1 "viewId"
        = Except.ok (some (encodeViewId 2))
      ∧ 2 ≠ 0 ∧ 2 < wordSize
      ∧ firstView 2 [⟨1, 0, ""⟩, ⟨2, 7, "main"⟩, ⟨2, 8, "other"⟩] = some ⟨2, 7, "main"⟩
      ∧ ((7 : Int) ≠ 0 → NulFree "main"))
    ∧ SetAssetBundlePath 0 [⟨1, 0, ""⟩, ⟨2, 7, "main"⟩, ⟨2, 8, "other"⟩] none (some ["viewId"])
        (some ["_flutterView/0x2"]) 1 0
      = Except.ok (true, "\x7b\"type\":\"Success\",\"view\":\x7b\"type\":\"FlutterView\", \"id\": \"_flutterView/0x2\",\"isolate\":\x7b\"type\":\"@Isolate\",\"fixedId\":true,\"id\":\"isolates/7\",\"name\":\"main\",\"number\":\"7\"\x7d\x7d\x7d") :=
  ⟨⟨rfl, by decide, by decide, rfl, fun _ => by decide⟩,
    ((SetAssetBundlePath_found 0 [⟨1, 0, ""⟩, ⟨2, 7, "main"⟩, ⟨2, 8, "other"⟩] none
      (some ["viewId"]) (some ["_flutterView/0x2"]) 1 0 2 ⟨2, 7, "main"⟩ rfl (by decide)
      (by decide) rfl).2.1 (fun _ => by decide)).trans rfl⟩

/-- C9, the code at a handle that matches no record: for the snapshot of the specification
(sentinel 0) and `viewId = _flutterView/0x3`, `SetAssetBundlePath` returns success with nothing
between `"view":` and the closing `}`. -/
theorem SetAssetBundlePath_no_match_example :
    SetAssetBundlePath 0 [⟨1, 0, ""⟩, ⟨2, 7, "main"⟩] none (some ["viewId"])
        (some ["_flutterView/0x3"]) 1 0
      = Except.ok (true, "\x7b\"type\":\"Success\",\"view\":" ++ "" ++ "\x7d") := by
  rfl

/-- C10, the code on a request without `viewId`: `ValueForKey` yields `NULL`, the handler adds
the prefix length to it and hands the result to `std::stoull`, so the call has no defined
result and returns nothing; for a key array of at least `num_params` entries the fault is the
use of the `NULL` pointer. -/
theorem SetAssetBundlePath_missing_viewId (ILLEGAL_PORT : Int)
    (platform_views : List PlatformViewInfo) (method : Option String)
    (param_keys param_values : Option (List String)) (num_params : Int) (user_data : Nat)
    (hkeys : ∀ keys, param_keys = some keys → "viewId" ∉ keys) :
    (∀ result, SetAssetBundlePath ILLEGAL_PORT platform_views method param_keys param_values
        num_params user_data ≠ Except.ok result)
    ∧ ((∀ keys, param_keys = some keys → num_params ≤ (keys.length : Int)) →
        SetAssetBundlePath ILLEGAL_PORT platform_views method param_keys param_values
          num_params user_data = Except.error Fault.null_pointer) := by
  have hv := ValueForKey_absent param_keys param_values num_params "viewId" hkeys
  have hnone : ValueForKey param_keys param_values num_params "viewId" = Except.ok none →
      SetAssetBundlePath ILLEGAL_PORT platform_views method param_keys param_values
        num_params user_data = Except.error Fault.null_pointer := by
    intro e
    simp only [SetAssetBundlePath, e]
    rfl
  constructor
  · intro result
    rcases hv.1 with e | e
    · rw [hnone e]
      simp
    · simp only [SetAssetBundlePath, e]
      simp
  · intro hlen
    exact hnone (hv.2 hlen)

/-- Witness of C10 (sentinel 0): a request without parameters, a request with an absent key
array, and a request whose only key is `path`. -/
theorem SetAssetBundlePath_missing_viewId_witness :
    ((∀ keys, (some ["path"] : Option (List String)) = some keys → "viewId" ∉ keys)
      ∧ (∀ keys, (some ["path"] : Option (List String)) = some keys →
          (1 : Int) ≤ (keys.length : Int)))
    ∧ SetAssetBundlePath 0 [⟨1, 0, ""⟩] none (some ["path"]) (some ["/tmp"]) 1 0
        = Except.error Fault.null_pointer
    ∧ SetAssetBundlePath 0 [⟨1, 0, ""⟩] none (some []) (some []) 0 0
        = Except.error Fault.null_pointer
    ∧ SetAssetBundlePath 0 [⟨1, 0, ""⟩] none none none 0 0 = Except.error Fault.null_pointer :=
  have hk : ∀ keys, (some ["path"] : Option (List String)) = some keys → "viewId" ∉ keys := by
    intro keys e
    cases e
    decide
  have hl : ∀ keys, (some ["path"] : Option (List String)) = some keys →
      (1 : Int) ≤ (keys.length : Int) := by
    intro keys e
    cases e
    decide
  ⟨⟨hk, hl⟩,
    (SetAssetBundlePath_missing_viewId 0 [⟨1, 0, ""⟩] none (some ["path"]) (some ["/tmp"]) 1 0
      hk).2 hl,
    rfl, rfl⟩

/-- C11: parameter lookup takes the first match.  `KeyIndex` returns -1 for an absent key
array and for a count that is not positive; it returns the least index below the count whose
key equals the wanted key, by exact comparison, when there is one, and -1 when an array of at
least `num_params` keys has none.  `ValueForKey` returns the value at that least index, and it
returns `NULL` exactly when `KeyIndex` returns -1. -/
theorem parameter_lookup_first_match (param_keys param_values : Option (List String))
    (num_params : Int) (key : String) :
    (param_keys = none → KeyIndex param_keys num_params key = Except.ok (-1))
    ∧ (num_params ≤ 0 → KeyIndex param_keys num_params key = Except.ok (-1))
    ∧ (∀ (keys : List String) (i : Nat), param_keys = some keys → (i : Int) < num_params →
        keys[i]? = some key → (∀ j, j < i → keys[j]? ≠ some key) →
        KeyIndex param_keys num_params key = Except.ok (i : Int)
        ∧ ∀ (values : List String) (v : String), param_values = some values →
            values[i]? = some v →
            ValueForKey param_keys param_values num_params key = Except.ok (some v))
    ∧ (∀ keys : List String, param_keys = some keys → num_params ≤ (keys.length : Int) →
        (∀ i : Nat, (i : Int) < num_params → keys[i]? ≠ some key) →
        KeyIndex param_keys num_params key = Except.ok (-1))
    ∧ (ValueForKey param_keys param_values num_params key = Except.ok none
        ↔ KeyIndex param_keys num_params key = Except.ok (-1)) := by
  refine ⟨?_, ?_, ?_, ?_, ValueForKey_none_iff param_keys param_values num_params key⟩
  · intro h
    rw [h]
    rfl
  · intro hn
    cases param_keys with
    | none => rfl
    | some keys =>
      have h0 : ¬ (0 : Int) < num_params := by omega
      cases keys with
      | nil => simp [KeyIndex, KeyIndex.loop, h0, hn]
      | cons k rest => simp [KeyIndex, KeyIndex.loop, h0]
  · intro keys i hkeys hi hat hbefore
    have hidx : KeyIndex param_keys num_params key = Except.ok (i : Int) := by
      rw [hkeys]
      have := KeyIndex_loop_found key num_params keys 0 i hat hbefore (by simpa using hi)
      simpa [KeyIndex] using this
    refine ⟨hidx, ?_⟩
    intro values v hvalues hv
    rw [hvalues]
    exact ValueForKey_at param_keys values num_params key i v hidx hv
  · intro keys hkeys hlen hno
    rw [hkeys]
    exact KeyIndex_loop_no_match key num_params keys 0 (by simpa using hlen)
      (fun d hd => hno d (by simpa using hd))

/-- Witness of C11: the key `viewId` stands at the indices 1 and 2 of three keys; the lookup
returns the index 1 and the value stored there, and the key `viewid` is not found. -/
theorem parameter_lookup_first_match_witness :
    ((1 : Int) < 3 ∧ ["a", "viewId", "viewId"][1]? = some "viewId"
      ∧ (∀ j, j < 1 → ["a", "viewId", "viewId"][j]? ≠ some "viewId")
      ∧ ["x", "y", "z"][1]? = some "y")
    ∧ KeyIndex (some ["a", "viewId", "viewId"]) 3 "viewId" = Except.ok 1
    ∧ ValueForKey (some ["a", "viewId", "viewId"]) (some ["x", "y", "z"]) 3 "viewId"
        = Except.ok (some "y")
    ∧ KeyIndex (some ["a", "viewId", "viewId"]) 3 "viewid" = Except.ok (-1)
    ∧ ValueForKey (some ["a", "viewId", "viewId"]) (some ["x", "y", "z"]) 3 "viewid"
        = Except.ok none :=
  have hb : ∀ j, j < 1 → ["a", "viewId", "viewId"][j]? ≠ some "viewId" := by
    intro j hj
    interval_cases j
    decide
  ⟨⟨by decide, rfl, hb, rfl⟩,
    ((parameter_lookup_first_match (some ["a", "viewId", "viewId"]) (some ["x", "y", "z"]) 3
      "viewId").2.2.1 ["a", "viewId", "viewId"] 1 rfl (by decide) rfl hb).1,
    ((parameter_lookup_first_match (some ["a", "viewId", "viewId"]) (some ["x", "y", "z"]) 3
      "viewId").2.2.1 ["a", "viewId", "viewId"] 1 rfl (by decide) rfl hb).2 ["x", "y", "z"] "y"
      rfl rfl,
    rfl,
    (parameter_lookup_first_match (some ["a", "viewId", "viewId"]) (some ["x", "y", "z"]) 3
      "viewid").2.2.2.2.mpr rfl⟩

/-- C12: `ListViews` cannot fail: for every snapshot and every request it returns `true`
together with a response text. -/
theorem ListViews_always_succeeds (ILLEGAL_PORT : Int) (platform_views : List PlatformViewInfo)
    (method : Option String) (param_keys param_values : Option (List String))
    (num_params : Int) (user_data : Nat) :
    (ListViews ILLEGAL_PORT platform_views method param_keys param_values num_params
        user_data).1 = true
    ∧ ∃ response : String,
        ListViews ILLEGAL_PORT platform_views method param_keys param_values num_params
          user_data = (true, response)
        ∧ Callback.call Callback.listViews ILLEGAL_PORT platform_views method param_keys
            param_values num_params user_data = Except.ok (true, response) :=
  ⟨rfl, _, rfl, rfl⟩

/-- C13: the responses depend on the stated inputs only.  Two `ListViews` calls on one
snapshot return the same text whatever their method names, parameters and user data, and two
`SetAssetBundlePath` calls on one snapshot whose lookups of `viewId` give the same value have
the same outcome whatever else their requests hold. -/
theorem responses_deterministic (ILLEGAL_PORT : Int) (platform_views : List PlatformViewInfo)
    (method₁ method₂ : Option String) (keys₁ values₁ keys₂ values₂ : Option (List String))
    (num₁ num₂ : Int) (data₁ data₂ : Nat) :
    ListViews ILLEGAL_PORT platform_views method₁ keys₁ values₁ num₁ data₁
      = ListViews ILLEGAL_PORT platform_views method₂ keys₂ values₂ num₂ data₂
    ∧ (ValueForKey keys₁ values₁ num₁ "viewId" = ValueForKey keys₂ values₂ num₂ "viewId" →
        SetAssetBundlePath ILLEGAL_PORT platform_views method₁ keys₁ values₁ num₁ data₁
          = SetAssetBundlePath ILLEGAL_PORT platform_views method₂ keys₂ values₂ num₂ data₂) := by
  refine ⟨rfl, ?_⟩
  intro h
  simp only [SetAssetBundlePath, h]

/-- Witness of C13 (sentinel 0): two requests whose first `viewId` is `_flutterView/0x2`, one
with a later second `viewId` and another method name and user data, get the same answer. -/
theorem responses_deterministic_witness :
    ValueForKey (some ["viewId"]) (some ["_flutterView/0x2"]) 1 "viewId"
      = ValueForKey (some ["path", "viewId", "viewId"])
          (some ["/tmp", "_flutterView/0x2", "_flutterView/0x1"]) 3 "viewId"
    ∧ SetAssetBundlePath 0 [⟨1, 0, ""⟩, ⟨2, 7, "main"⟩] none (some ["viewId"])
        (some ["_flutterView/0x2"]) 1 0
      = SetAssetBundlePath 0 [⟨1, 0, ""⟩, ⟨2, 7, "main"⟩] (some "_flutter.setAssetBundlePath")
          (some ["path", "viewId", "viewId"])
          (some ["/tmp", "_flutterView/0x2", "_flutterView/0x1"]) 3 5 :=
  ⟨rfl, (responses_deterministic 0 [⟨1, 0, ""⟩, ⟨2, 7, "main"⟩] none
    (some "_flutter.setAssetBundlePath") (some ["viewId"]) (some ["_flutterView/0x2"])
    (some ["path", "viewId", "viewId"]) (some ["/tmp", "_flutterView/0x2", "_flutterView/0x1"])
    1 3 0 5).2 rfl⟩

/-- C14, the code on a malformed `viewId`: for every snapshot, the value `_flutterView/zz`
ends the call by the exception `std::invalid_argument` of `std::stoull`, and the value
`_flutterView/0x10000000000000000`, that is `2 ^ 64`, by `std::out_of_range`; no result is
returned. -/
theorem SetAssetBundlePath_malformed_viewId (ILLEGAL_PORT : Int)
    (platform_views : List PlatformViewInfo) :
    SetAssetBundlePath ILLEGAL_PORT platform_views none (some ["viewId"])
        (some ["_flutterView/zz"]) 1 0 = Except.error Fault.invalid_argument
    ∧ SetAssetBundlePath ILLEGAL_PORT platform_views none (some ["viewId"])
        (some ["_flutterView/0x10000000000000000"]) 1 0 = Except.error Fault.out_of_range :=
  ⟨SetAssetBundlePath_of_fault ILLEGAL_PORT platform_views none (some ["viewId"])
      (some ["_flutterView/zz"]) 1 0 (some "_flutterView/zz") Fault.invalid_argument rfl rfl,
    SetAssetBundlePath_of_fault ILLEGAL_PORT platform_views none (some ["viewId"])
      (some ["_flutterView/0x10000000000000000"]) 1 0 (some "_flutterView/0x10000000000000000")
      Fault.out_of_range rfl rfl⟩

/-- C15: on a dispatcher without registrations `RegisterHooks` leaves exactly two, in this
order: `_flutter.listViews` with the callback `ListViews` and `_flutter.setAssetBundlePath`
with the callback `SetAssetBundlePath`, both with a null user data pointer.  On any dispatcher
it adds these two behind what is there, and the flag `running_precompiled_code` changes
nothing.  The callbacks run the two handlers. -/
theorem RegisterHooks_registrations (running_precompiled_code : Bool)
    (dispatcher : List Registration) :
    RegisterHooks running_precompiled_code []
      = [⟨"_flutter.listViews", Callback.listViews, none⟩,
          ⟨"_flutter.setAssetBundlePath", Callback.setAssetBundlePath, none⟩]
    ∧ RegisterHooks running_precompiled_code dispatcher
      = dispatcher ++ RegisterHooks running_precompiled_code []
    ∧ RegisterHooks true dispatcher = RegisterHooks false dispatcher
    ∧ (∀ ILLEGAL_PORT platform_views method param_keys param_values num_params user_data,
        Callback.call Callback.listViews ILLEGAL_PORT platform_views method param_keys
            param_values num_params user_data
          = Except.ok (ListViews ILLEGAL_PORT platform_views method param_keys param_values
              num_params user_data)
        ∧ Callback.call Callback.setAssetBundlePath ILLEGAL_PORT platform_views method
            param_keys param_values num_params user_data
          = SetAssetBundlePath ILLEGAL_PORT platform_views method param_keys param_values
              num_params user_data) := by
  refine ⟨rfl, ?_, rfl, fun _ _ _ _ _ _ _ => ⟨rfl, rfl⟩⟩
  simp [RegisterHooks, Dart_RegisterRootServiceRequestCallback]

/-- C17: when the `viewId` of the request decodes to a handle that no record with a non-zero
handle has, `SetAssetBundlePath` returns `true` and exactly `{"type":"Success","view":}`. -/
theorem no_match_gives_empty_view (ILLEGAL_PORT : Int)
    (platform_views : List PlatformViewInfo) (method : Option String)
    (param_keys param_values : Option (List String)) (num_params : Int) (user_data : Nat)
    (view_id_str : Option String) (h : Nat)
    (hreq : ValueForKey param_keys param_values num_params "viewId" = Except.ok view_id_str)
    (hdec : decodeViewId view_id_str = Except.ok h)
    (hno : ∀ r ∈ platform_views, r.view_id ≠ 0 → r.view_id ≠ h) :
    SetAssetBundlePath ILLEGAL_PORT platform_views method param_keys param_values num_params
        user_data = Except.ok (true, "\x7b\"type\":\"Success\",\"view\":\x7d") := by
  rw [SetAssetBundlePath_of_decoded ILLEGAL_PORT platform_views method param_keys param_values
    num_params user_data view_id_str h hreq hdec,
    SetAssetBundlePath_loop_no_match ILLEGAL_PORT h platform_views _ hno]
  rfl

/-- Witness of C17 (sentinel 0): the handle 0 against a snapshot that holds a record with the
handle 0, and the handle 3 against the views 1 and 2. -/
theorem no_match_gives_empty_view_witness :
    (ValueForKey (some ["viewId"]) (some ["_flutterView/0x0"]) 1 "viewId"
        = Except.ok (some "_flutterView/0x0")
      ∧ decodeViewId (some "_flutterView/0x0") = Except.ok 0
      ∧ ∀ r ∈ [(⟨0, 7, "main"⟩ : PlatformViewInfo), ⟨2, 0, ""⟩], r.view_id ≠ 0 → r.view_id ≠ 0)
    ∧ SetAssetBundlePath 0 [⟨0, 7, "main"⟩, ⟨2, 0, ""⟩] none (some ["viewId"])
        (some ["_flutterView/0x0"]) 1 0
      = Except.ok (true, "\x7b\"type\":\"Success\",\"view\":\x7d")
    ∧ SetAssetBundlePath 0 [⟨1, 0, ""⟩, ⟨2, 7, "main"⟩] none (some ["viewId"])
        (some ["_flutterView/0x3"]) 1 0
      = Except.ok (true, "\x7b\"type\":\"Success\",\"view\":\x7d") :=
  have hno : ∀ r ∈ [(⟨0, 7, "main"⟩ : PlatformViewInfo), ⟨2, 0, ""⟩],
      r.view_id ≠ 0 → r.view_id ≠ 0 := fun _ _ h => h
  ⟨⟨rfl, rfl, hno⟩,
    no_match_gives_empty_view 0 [⟨0, 7, "main"⟩, ⟨2, 0, ""⟩] none (some ["viewId"])
      (some ["_flutterView/0x0"]) 1 0 (some "_flutterView/0x0") 0 rfl rfl hno,
    no_match_gives_empty_view 0 [⟨1, 0, ""⟩, ⟨2, 7, "main"⟩] none (some ["viewId"])
      (some ["_flutterView/0x3"]) 1 0 (some "_flutterView/0x3") 3 rfl rfl (by decide)⟩

/-- C18: the decoder drops `kViewIdPrefxLength = 13` characters, the length of
`_flutterView/`, and `std::stoull` in base 16 takes the `0x` that follows as part of the
number; so for every non-empty text `d` of hexadecimal digits of either case, leading zeros
allowed, whose value is below `2 ^ 64`, decoding `_flutterView/0x` followed by `d` gives the
value of `d`. -/
theorem decode_hex_text (d : String) (hne : d.data ≠ [])
    (hall : ∀ c ∈ d.data, c ∈ "0123456789abcdefABCDEF".data)
    (hv : digitsValue 16 d.data < wordSize) :
    kViewIdPrefxLength = 13
    ∧ cstrFrom (some ("_flutterView/0x" ++ d)) kViewIdPrefxLength = Except.ok ("0x" ++ d)
    ∧ decodeViewId (some ("_flutterView/0x" ++ d)) = Except.ok (digitsValue 16 d.data) := by
  have hc : cstrFrom (some ("_flutterView/0x" ++ d)) kViewIdPrefxLength
      = Except.ok ("0x" ++ d) :=
    cstrFrom_after_prefix d.data (fun c h => hexChars_ascii c (hall c h))
  refine ⟨rfl, hc, ?_⟩
  have hs : stoull ("0x" ++ d) 16 = Except.ok (digitsValue 16 d.data) :=
    stoull_hex_digits d.data hne (fun c h => hexChars_isDigitOf c (hall c h)) hv
  simp only [decodeViewId, hc, hs]
  rw [Nat.mod_eq_of_lt hv]

/-- Witness of C18: the digits `00fF`, with leading zeros and both letter cases, decode to
255, and sixteen digits `F` decode to `2 ^ 64 - 1`. -/
theorem decode_hex_text_witness :
    ("00fF".data ≠ [] ∧ (∀ c ∈ "00fF".data, c ∈ "0123456789abcdefABCDEF".data)
      ∧ digitsValue 16 "00fF".data < wordSize)
    ∧ decodeViewId (some "_flutterView/0x00fF") = Except.ok 255
    ∧ decodeViewId (some "_flutterView/0xFFFFFFFFFFFFFFFF") = Except.ok 18446744073709551615 :=
  ⟨⟨by decide, by decide, by decide⟩,
    (decode_hex_text "00fF" (by decide) (by decide) (by decide)).2.2,
    (decode_hex_text "FFFFFFFFFFFFFFFF" (by decide) (by decide) (by decide)).2.2⟩

/-- C19: the decoder does not look at the first 13 characters, where a character is a `char`
of the C string, one byte.  Two `viewId` texts of at least 13 bytes with the same bytes behind
the first 13 decode alike, and on one snapshot `SetAssetBundlePath` has the same outcome for
them; for texts of ASCII characters the bytes are the characters of the text.  The texts
`XXXXXXXXXXXXX0x2`, `_flutterView/2` and `_flutterView/0x2` all decode to the handle 2, and so
does `ééééééX0x2`, whose first 13 bytes end at the `X`; thirteen `é` followed by `0x2` do not
decode, because the thirteenth byte lies inside the seventh `é`. -/
theorem decoder_ignores_first_13 (a b : String) (ha : 13 ≤ (cstrBytes a.data).length)
    (hb : 13 ≤ (cstrBytes b.data).length)
    (hab : (cstrBytes a.data).drop 13 = (cstrBytes b.data).drop 13) :
    decodeViewId (some a) = decodeViewId (some b)
    ∧ (∀ (ILLEGAL_PORT : Int) (platform_views : List PlatformViewInfo)
        (method₁ method₂ : Option String) (keys₁ values₁ keys₂ values₂ : Option (List String))
        (num₁ num₂ : Int) (data₁ data₂ : Nat),
        ValueForKey keys₁ values₁ num₁ "viewId" = Except.ok (some a) →
        ValueForKey keys₂ values₂ num₂ "viewId" = Except.ok (some b) →
        SetAssetBundlePath ILLEGAL_PORT platform_views method₁ keys₁ values₁ num₁ data₁
          = SetAssetBundlePath ILLEGAL_PORT platform_views method₂ keys₂ values₂ num₂ data₂)
    ∧ (∀ s : String, (∀ c ∈ s.data, c.toNat < 128) →
        (cstrBytes s.data).length = s.length
        ∧ (cstrBytes s.data).drop 13 = (s.data.drop 13).map Char.toNat)
    ∧ decodeViewId (some "XXXXXXXXXXXXX0x2") = Except.ok 2
    ∧ decodeViewId (some "_flutterView/2") = Except.ok 2
    ∧ decodeViewId (some "_flutterView/0x2") = Except.ok 2
    ∧ decodeViewId (some "ééééééX0x2") = Except.ok 2
    ∧ decodeViewId (some "ééééééééééééé0x2") = Except.error Fault.invalid_argument := by
  have hdec : decodeViewId (some a) = decodeViewId (some b) := by
    have h13 : kViewIdPrefxLength = 13 := rfl
    have hab' : (cstrBytes a.data).drop kViewIdPrefxLength
        = (cstrBytes b.data).drop kViewIdPrefxLength := hab
    simp only [decodeViewId, cstrFrom_drop a (by omega), cstrFrom_drop b (by omega), hab']
  refine ⟨hdec, ?_, ?_, rfl, rfl, rfl, rfl, rfl⟩
  · intro ip snap m₁ m₂ k₁ v₁ k₂ v₂ n₁ n₂ d₁ d₂ h₁ h₂
    simp only [SetAssetBundlePath, h₁, h₂, hdec]
  · intro s hascii
    rw [cstrBytes_ascii s.data hascii, List.length_map, List.map_drop]
    exact ⟨rfl, rfl⟩

/-- Witness of C19 (sentinel 0): `ééééééX0x2` and `_flutterView/0x2` both have 13 bytes before
`0x2` and select the same view, and so do `XXXXXXXXXXXXX0x2` and `_flutterView/0x2`, texts of
ASCII characters that agree behind their first 13 characters. -/
theorem decoder_ignores_first_13_witness :
    (13 ≤ (cstrBytes "ééééééX0x2".data).length ∧ 13 ≤ (cstrBytes "_flutterView/0x2".data).length
      ∧ (cstrBytes "ééééééX0x2".data).drop 13 = (cstrBytes "_flutterView/0x2".data).drop 13)
    ∧ decodeViewId (some "ééééééX0x2") = decodeViewId (some "_flutterView/0x2")
    ∧ SetAssetBundlePath 0 [⟨1, 0, ""⟩, ⟨2, 7, "main"⟩] none (some ["viewId"])
        (some ["ééééééX0x2"]) 1 0
      = SetAssetBundlePath 0 [⟨1, 0, ""⟩, ⟨2, 7, "main"⟩] none (some ["viewId"])
        (some ["_flutterView/0x2"]) 1 0
    ∧ ((∀ c ∈ "XXXXXXXXXXXXX0x2".data, c.toNat < 128)
      ∧ "XXXXXXXXXXXXX0x2".data.drop 13 = "_flutterView/0x2".data.drop 13)
    ∧ SetAssetBundlePath 0 [⟨1, 0, ""⟩, ⟨2, 7, "main"⟩] none (some ["viewId"])
        (some ["XXXXXXXXXXXXX0x2"]) 1 0
      = SetAssetBundlePath 0 [⟨1, 0, ""⟩, ⟨2, 7, "main"⟩] none (some ["viewId"])
        (some ["_flutterView/0x2"]) 1 0 :=
  ⟨⟨by decide, by decide, by decide⟩,
    (decoder_ignores_first_13 "ééééééX0x2" "_flutterView/0x2" (by decide) (by decide)
      (by decide)).1,
    (decoder_ignores_first_13 "ééééééX0x2" "_flutterView/0x2" (by decide) (by decide)
      (by decide)).2.1 0 [⟨1, 0, ""⟩, ⟨2, 7, "main"⟩] none none (some ["viewId"])
      (some ["ééééééX0x2"]) (some ["viewId"]) (some ["_flutterView/0x2"]) 1 1 0 0 rfl rfl,
    ⟨by decide, rfl⟩,
    (decoder_ignores_first_13 "XXXXXXXXXXXXX0x2" "_flutterView/0x2" (by decide) (by decide)
      (by decide)).2.1 0 [⟨1, 0, ""⟩, ⟨2, 7, "main"⟩] none none (some ["viewId"])
      (some ["XXXXXXXXXXXXX0x2"]) (some ["viewId"]) (some ["_flutterView/0x2"]) 1 1 0 0 rfl
      rfl⟩

set_option maxRecDepth 100000 in
/-- C20: the isolate name goes into the isolate reference unchanged, between `"name":"` and
`","number"`, with no JSON escaping; so whatever the sentinel, some snapshot with an isolate
named `a"b` gets a `ListViews` response that is not well-formed JSON, while the response for
the snapshot of the specification is well-formed. -/
theorem isolate_name_verbatim (ILLEGAL_PORT : Int) (main_port : Int) (name : String) :
    (AppendIsolateRef StringStream.fresh main_port name).str
      = ("\x7b\"type\":\"@Isolate\",\"fixedId\":true,\"id\":\"isolates/" ++ toString main_port
          ++ "\",\"name\":\"") ++ name ++ ("\",\"number\":\"" ++ toString main_port ++ "\"\x7d")
    ∧ (∃ isolate_id : Int,
        wellFormedJson
          (ListViews ILLEGAL_PORT [⟨1, isolate_id, "a\"b"⟩] none none none 0 0).2 = false)
    ∧ wellFormedJson (ListViews 0 [⟨1, 7, "a\"b"⟩] none none none 0 0).2 = false
    ∧ wellFormedJson (ListViews 0 [⟨1, 0, ""⟩, ⟨2, 7, "main"⟩] none none none 0 0).2 = true := by
  refine ⟨?_, ?_, by decide, by decide⟩
  · have h := isolateRef_eq main_port name
    rw [isolateRef, formatInt64_dec_eq_toString] at h
    rw [h]
    apply String.ext
    simp
  · by_cases hip : ILLEGAL_PORT = 7
    · refine ⟨8, ?_⟩
      rw [ListViews_single_bound ILLEGAL_PORT ⟨1, 8, "a\"b"⟩ none none none 0 0
        (by simp [hip]) (by decide)]
      decide
    · refine ⟨7, ?_⟩
      rw [ListViews_single_bound ILLEGAL_PORT ⟨1, 7, "a\"b"⟩ none none none 0 0
        (fun h => hip h.symm) (by decide)]
      decide

end flutter_runner
